import Mathlib

/-!
Shallow embedding of `seir_model/seir_model.py` (an MCMC fitter for a
discrete-time stochastic SEIR model) and verification of the specification
claims about it.

Conventions of the embedding:
* numpy arrays of length `T` become functions `ℕ → ℤ` (integer series) or
  `ℕ → ℝ` (real series); all statements about an array quantify over `t < T`;
* randomness (uniform draws, index choices, Gaussian proposal draws) becomes
  explicit oracle arguments: a uniform draw `u : ℝ`, the per-attempt index
  selections of the single-site resampler as a `List Attempt`, and the
  Gaussian random-walk candidates as a `List (Fin 7 → ℝ)`;
* Python floats are modelled as real numbers;
* the parameter vector `params = [beta, q, delta, rho, gamma_mild,
  gamma_wild, k]` becomes `Fin 7 → ℝ`, indexed positionally as the code does.
-/

/-- `round_int(x) = np.floor(x+0.5).astype(int)` (round half up). -/
noncomputable def round_int (x : ℝ) : ℤ := ⌊x + 1 / 2⌋

/-- `compute_S(e0, i_mild0, i_wild0, B, N)` from the source:
`N[0] - np.concatenate(([0], np.cumsum(B)[:-1])) + N - N[0]`, i.e. entry `t`
is `N 0 - (∑ τ < t, B τ) + N t - N 0`.  Note the first three arguments are
not used by the body (exactly as in the source). -/
def compute_S (e0 i_mild0 i_wild0 : ℤ) (B N : ℕ → ℤ) : ℕ → ℤ :=
  fun t => N 0 - (∑ τ ∈ Finset.range t, B τ) + N t - N 0

/-- `compute_E(e0, B, C)`: entry `t` is `e0 + ∑ τ < t, (B τ - C τ)`. -/
def compute_E (e0 : ℤ) (B C : ℕ → ℤ) : ℕ → ℤ :=
  fun t => e0 + ∑ τ ∈ Finset.range t, (B τ - C τ)

/-- `compute_I(i0, C, D)`: entry `t` is `i0 + ∑ τ < t, (C τ - D τ)`. -/
def compute_I (i0 : ℤ) (C D : ℕ → ℤ) : ℕ → ℤ :=
  fun t => i0 + ∑ τ ∈ Finset.range t, (C τ - D τ)

/-- `transmission_rate(beta, q, t_ctrl, t_end)`: an array of length `t_end`
initialised to `beta` everywhere; when `t_ctrl < t_end` the entries at
indices `t_ctrl, …, t_end-1` are overwritten with
`beta * exp(-q * (t - t_ctrl))`. -/
noncomputable def transmission_rate (beta q : ℝ) (t_ctrl t_end : ℕ) : ℕ → ℝ :=
  fun t =>
    if t_ctrl < t_end ∧ t_ctrl ≤ t then beta * Real.exp (-q * ((t - t_ctrl : ℕ) : ℝ))
    else beta

/-- `compute_P(trans_rate, I_mild, I_wild, N)`:
`P[t] = 1 - exp(-trans_rate[t] * (I_mild[t] + I_wild[t]) / N[t])`. -/
noncomputable def compute_P (trans_rate : ℕ → ℝ) (I_mild I_wild N : ℕ → ℤ) : ℕ → ℝ :=
  fun t => 1 - Real.exp (-trans_rate t * ((I_mild t + I_wild t : ℤ) : ℝ) / ((N t : ℤ) : ℝ))

/-- Modelled from the library behaviour of `scipy.stats.binom(n, p).pmf(k)`
for an integer count `n` and probability `p`: the probability mass
`C(n,k) pᵏ (1-p)ⁿ⁻ᵏ` when `0 ≤ k ≤ n`, and `0` otherwise. -/
noncomputable def binomPMF (n : ℤ) (p : ℝ) (k : ℤ) : ℝ :=
  if 0 ≤ k ∧ k ≤ n then
    (Nat.choose n.toNat k.toNat : ℝ) * p ^ k.toNat * (1 - p) ^ (n - k).toNat
  else 0

/-- Modelled from the library behaviour of `scipy.stats.gamma(a, b).pdf(x)`:
`scipy` reads the second positional argument as the location `loc = b`, so the
density is `(x-b)^(a-1) exp(-(x-b)) / Γ(a)` for `x ≥ b` and `0` for `x < b`. -/
noncomputable def gammaPDF (a loc x : ℝ) : ℝ :=
  if loc ≤ x then (x - loc) ^ (a - 1) * Real.exp (-(x - loc)) / Real.Gamma a else 0

/-- `numpy`'s `arr.all()` for a real array of length `t_end`: `true` iff every
entry is nonzero (numpy truthiness). -/
noncomputable def np_all (t_end : ℕ) (v : ℕ → ℝ) : Bool :=
  decide (∀ t : Fin t_end, v t.val ≠ 0)

/-- Python coerces a `bool` to the integer `1`/`0` when it is compared with a
number, as in the source's `assert trans_rate.all() >= 0`. -/
def pyBoolToInt (b : Bool) : ℤ := if b then 1 else 0

/-- The condition of the source's `assert trans_rate.all() >= 0` at the end of
`transmission_rate`, exactly as written: the boolean `trans_rate.all()` is
compared (as an integer) with `0`. -/
noncomputable def transmission_rate_assert_holds (beta q : ℝ) (t_ctrl t_end : ℕ) : Prop :=
  0 ≤ pyBoolToInt (np_all t_end (transmission_rate beta q t_ctrl t_end))

/-- The mutable state threaded through the training loop of `train`. -/
structure SEIRState where
  S : ℕ → ℤ
  E : ℕ → ℤ
  I_mild : ℕ → ℤ
  I_wild : ℕ → ℤ
  B : ℕ → ℤ
  C : ℕ → ℤ
  D_mild : ℕ → ℤ
  D_wild : ℕ → ℤ
  P : ℕ → ℝ
  N : ℕ → ℤ

/-- `check_rep_inv(S, E, I_mild, I_wild, B, C, D_mild, D_wild, P, N, inits,
params, t_ctrl, t_end)`: the conjunction of all the assertions of the source
function, restricted to indices `t < t_end` (the array length `T`). -/
noncomputable def check_rep_inv (T : ℕ) (st : SEIRState) (e0 i_mild0 i_wild0 : ℤ)
    (params : Fin 7 → ℝ) (t_ctrl : ℕ) : Prop :=
  (∀ t < T, 0 ≤ st.I_mild t) ∧
  (∀ t < T, 0 ≤ st.I_wild t) ∧
  (∀ t < T, 0 ≤ st.S t) ∧
  (∀ t < T, 0 ≤ st.E t) ∧
  (∀ t < T, 0 ≤ st.I_mild t + st.I_wild t) ∧
  (∀ t < T, 0 ≤ st.B t) ∧
  (∀ t < T, 0 ≤ st.C t) ∧
  (∀ t < T, 0 ≤ st.D_mild t) ∧
  (∀ t < T, 0 ≤ st.D_wild t) ∧
  (∀ t < T, 0 ≤ st.P t ∧ st.P t ≤ 1) ∧
  (∀ t < T, st.S t = compute_S e0 i_mild0 i_wild0 st.B st.N t) ∧
  (∀ t < T, st.E t = compute_E e0 st.B st.C t) ∧
  (∀ t < T, st.I_mild t =
    compute_I i_mild0 (fun τ => round_int ((st.C τ : ℝ) * params 2)) st.D_mild t) ∧
  (∀ t < T, st.I_wild t =
    compute_I i_wild0 (fun τ => st.C τ - round_int ((st.C τ : ℝ) * params 2)) st.D_wild t) ∧
  (∀ t < T, st.P t =
    compute_P (transmission_rate (params 0) (params 1) t_ctrl T) st.I_mild st.I_wild st.N t)

/-- One attempt of the single-site resampler `sample_x`: the randomly chosen
source indices `t_new` (drawn without replacement from the indices with value
`≥ 1`), the destination indices `t_tilde` (drawn without replacement from the
whole range), and the fair coin `one_off` choosing the unit-swap branch. -/
structure Attempt where
  t_new : Finset ℕ
  t_tilde : Finset ℕ
  one_off : Bool

/-- The per-index decrement of an attempt: `1` in the unit-swap branch,
`x[i] // 80` (floor division) in the proportional branch. -/
def change_subs (x : ℕ → ℤ) (a : Attempt) : ℕ → ℤ :=
  fun i => if a.one_off then 1 else Int.fdiv (x i) 80

/-- The per-index increment of an attempt: `1` in the unit-swap branch,
`x[i] // 79` (floor division, at the destination's current value) in the
proportional branch. -/
def change_add (x : ℕ → ℤ) (a : Attempt) : ℕ → ℤ :=
  fun i => if a.one_off then 1 else Int.fdiv (x i) 79

/-- `x_new[t_new] -= change_subs; x_new[t_tilde] += change_add` applied to `x`. -/
def apply_move (x : ℕ → ℤ) (a : Attempt) : ℕ → ℤ :=
  fun i =>
    x i - (if i ∈ a.t_new then change_subs x a i else 0)
      + (if i ∈ a.t_tilde then change_add x a i else 0)

/-- The revert performed after a failed attempt:
`x_new[t_new] += change_subs; x_new[t_tilde] -= change_add`, where the change
amounts were saved from the pre-move series `x`. -/
def undo_move (y x : ℕ → ℤ) (a : Attempt) : ℕ → ℤ :=
  fun i =>
    y i + (if i ∈ a.t_new then change_subs x a i else 0)
      - (if i ∈ a.t_tilde then change_add x a i else 0)

/-- The constraints the source's random draws satisfy in one attempt of
`sample_x` on the working series `x`: sources are distinct indices with value
`≥ 1`, there are `min(15, #nonzero)` of them, and the destinations are as many
distinct indices of the full range. -/
def validAttempt (T : ℕ) (x : ℕ → ℤ) (a : Attempt) : Prop :=
  a.t_new ⊆ (Finset.range T).filter (fun i => 1 ≤ x i) ∧
  a.t_new.card = min 15 ((Finset.range T).filter (fun i => x i ≠ 0)).card ∧
  a.t_tilde ⊆ Finset.range T ∧
  a.t_tilde.card = a.t_new.card

/-- `sample_x(x, data, conditions_fn, data_fn)`: repeatedly propose a move
(the randomness of each attempt supplied by the oracle list), recompute the
dependent data, and return the first candidate passing `conditions_fn`; a
failed attempt is reverted exactly; when the attempt budget (100 in the
source, the oracle list here) is exhausted, return the original `x, data`. -/
def sample_x {δ : Type} (conditions_fn : (ℕ → ℤ) → δ → Bool) (data_fn : (ℕ → ℤ) → δ) :
    (ℕ → ℤ) → δ → List Attempt → (ℕ → ℤ) × δ
  | x, data, [] => (x, data)
  | x, data, a :: rest =>
      let x_cand := apply_move x a
      let data_new := data_fn x_cand
      if conditions_fn x_cand data_new then (x_cand, data_new)
      else sample_x conditions_fn data_fn (undo_move x_cand x a) data rest

/-- The accept/reject loop of `metropolis_hastings`, iterated once per entry
of the oracle list (the source's `burn_in` count, `1` at every call site);
each entry carries the uniform draw `u` and the proposal randomness `r`. -/
noncomputable def mh_loop {α β ρ : Type} (fn : α → β → ℝ)
    (proposal : α → β → (α → β → Bool) → ρ → α × β) (conditions_fn : α → β → Bool) :
    List (ℝ × ρ) → α × β → α × β
  | [], s => s
  | (u, r) :: rest, (x, data) =>
      let cand := proposal x data conditions_fn r
      let accept_log_prob := min 0 (fn cand.1 cand.2 - fn x data)
      if Real.log u ≤ accept_log_prob then mh_loop fn proposal conditions_fn rest (cand.1, cand.2)
      else mh_loop fn proposal conditions_fn rest (x, data)

/-- `metropolis_hastings(x, data, fn, proposal, conditions_fn, burn_in)`:
returns the (possibly unchanged) sample, its data, `fn` of the returned
sample, and `fn` of the pre-step sample. -/
noncomputable def metropolis_hastings {α β ρ : Type} (x : α) (data : β) (fn : α → β → ℝ)
    (proposal : α → β → (α → β → Bool) → ρ → α × β) (conditions_fn : α → β → Bool)
    (rand : List (ℝ × ρ)) : α × β × ℝ × ℝ :=
  let old_log_prob := fn x data
  let s := mh_loop fn proposal conditions_fn rand (x, data)
  (s.1, s.2, fn s.1 s.2, old_log_prob)

/-- The auxiliary data of the B-sampler: the derived series `S` and `E`. -/
structure BData where
  S : ℕ → ℤ
  E : ℕ → ℤ

/-- The `data_fn` closure of `sample_B`: recompute `S` and `E` from a
candidate `B`. -/
def sample_B_data_fn (e0 i_mild0 i_wild0 : ℤ) (C N : ℕ → ℤ) (x : ℕ → ℤ) : BData :=
  ⟨compute_S e0 i_mild0 i_wild0 x N, compute_E e0 x C⟩

/-- The `conditions_fn` closure of `sample_B`: `(S>=0).all() and (E>=0).all()`. -/
def sample_B_conditions (T : ℕ) (_x : ℕ → ℤ) (data : BData) : Bool :=
  decide (∀ t : Fin T, 0 ≤ data.S t.val) && decide (∀ t : Fin T, 0 ≤ data.E t.val)

/-- The log-likelihood closure of `sample_B`:
`sum(log(binom(S, P).pmf(x) + epsilon))`, where `P` is the sampler's ambient
`P` series (it does not depend on `x`). -/
noncomputable def sample_B_fn (T : ℕ) (P : ℕ → ℝ) (epsilon : ℝ) (x : ℕ → ℤ) (data : BData) : ℝ :=
  ∑ t ∈ Finset.range T, Real.log (binomPMF (data.S t) (P t) (x t) + epsilon)

/-- `sample_B(B, [S, E, I_mild, I_wild, C, P, N], inits, params, t_ctrl,
epsilon)`: one Metropolis step on the latent series `B` using the single-site
resampler as proposal.  Returns `(B, S, E, log_prob_new, log_prob_old)`. -/
noncomputable def sample_B (T : ℕ) (B S E I_mild I_wild C : ℕ → ℤ) (P : ℕ → ℝ) (N : ℕ → ℤ)
    (e0 i_mild0 i_wild0 : ℤ) (params : Fin 7 → ℝ) (t_ctrl : ℕ) (epsilon : ℝ)
    (u : ℝ) (attempts : List Attempt) : (ℕ → ℤ) × BData × ℝ × ℝ :=
  let fn := sample_B_fn T P epsilon
  let data_fn := sample_B_data_fn e0 i_mild0 i_wild0 C N
  let conditions_fn := sample_B_conditions T
  let proposal := fun x data cf r => sample_x cf data_fn x data r
  metropolis_hastings B (⟨S, E⟩ : BData) fn proposal conditions_fn [(u, attempts)]

/-- The auxiliary data of the C-sampler: `E`, `I_mild`, `I_wild`, `P`. -/
structure CData where
  E : ℕ → ℤ
  I_mild : ℕ → ℤ
  I_wild : ℕ → ℤ
  P : ℕ → ℝ

/-- The `data_fn` closure of `sample_C`: recompute `E`, `I_mild`, `I_wild`
and `P` from a candidate `C` (inflows `round_int(delta*x)` and
`x - round_int(delta*x)`). -/
noncomputable def sample_C_data_fn (T : ℕ) (e0 i_mild0 i_wild0 : ℤ) (B D_mild D_wild N : ℕ → ℤ)
    (params : Fin 7 → ℝ) (t_ctrl : ℕ) (x : ℕ → ℤ) : CData :=
  let I_mild_new := compute_I i_mild0 (fun τ => round_int (params 2 * (x τ : ℝ))) D_mild
  let I_wild_new := compute_I i_wild0 (fun τ => x τ - round_int (params 2 * (x τ : ℝ))) D_wild
  ⟨compute_E e0 B x, I_mild_new, I_wild_new,
    compute_P (transmission_rate (params 0) (params 1) t_ctrl T) I_mild_new I_wild_new N⟩

/-- The `conditions_fn` closure of `sample_C`:
`(E>=0).all() and (I_mild>=0).all() and (I_wild>=0).all()`. -/
def sample_C_conditions (T : ℕ) (_x : ℕ → ℤ) (data : CData) : Bool :=
  decide (∀ t : Fin T, 0 ≤ data.E t.val) && decide (∀ t : Fin T, 0 ≤ data.I_mild t.val) &&
    decide (∀ t : Fin T, 0 ≤ data.I_wild t.val)

/-- The log-likelihood closure of `sample_C`:
`sum(log(binom(E, 1-exp(-rho)).pmf(x) + epsilon))`. -/
noncomputable def sample_C_fn (T : ℕ) (params : Fin 7 → ℝ) (epsilon : ℝ)
    (x : ℕ → ℤ) (data : CData) : ℝ :=
  let pC := 1 - Real.exp (-params 3)
  ∑ t ∈ Finset.range T, Real.log (binomPMF (data.E t) pC (x t) + epsilon)

/-- `sample_C(C, [E, I_mild, I_wild, D_mild, D_wild, B, N, P], inits, params,
t_ctrl, epsilon)`: one Metropolis step on the latent series `C`.
Returns `(C, E, I_mild, I_wild, P, log_prob_new, log_prob_old)`. -/
noncomputable def sample_C (T : ℕ) (C E I_mild I_wild D_mild D_wild B N : ℕ → ℤ) (P : ℕ → ℝ)
    (e0 i_mild0 i_wild0 : ℤ) (params : Fin 7 → ℝ) (t_ctrl : ℕ) (epsilon : ℝ)
    (u : ℝ) (attempts : List Attempt) : (ℕ → ℤ) × CData × ℝ × ℝ :=
  let fn := sample_C_fn T params epsilon
  let data_fn := sample_C_data_fn T e0 i_mild0 i_wild0 B D_mild D_wild N params t_ctrl
  let conditions_fn := sample_C_conditions T
  let proposal := fun x data cf r => sample_x cf data_fn x data r
  metropolis_hastings C (⟨E, I_mild, I_wild, P⟩ : CData) fn proposal conditions_fn [(u, attempts)]

/-- The `data_fn` closure of `sample_D_mild`: recompute `I_mild` from a
candidate `D_mild` with inflow `round_int(C*delta)`. -/
noncomputable def sample_D_mild_data_fn (i_mild0 : ℤ) (C : ℕ → ℤ) (params : Fin 7 → ℝ)
    (x : ℕ → ℤ) : ℕ → ℤ :=
  compute_I i_mild0 (fun τ => round_int ((C τ : ℝ) * params 2)) x

/-- The `conditions_fn` closure of `sample_D_mild`: `(I_mild>=0).all()`. -/
def sample_D_mild_conditions (T : ℕ) (_x : ℕ → ℤ) (data : ℕ → ℤ) : Bool :=
  decide (∀ t : Fin T, 0 ≤ data t.val)

/-- The log-likelihood closure of `sample_D_mild`:
`sum(log(binom(I_mild, 1-exp(-gamma_mild)).pmf(x) + epsilon))`. -/
noncomputable def sample_D_mild_fn (T : ℕ) (params : Fin 7 → ℝ) (epsilon : ℝ)
    (x : ℕ → ℤ) (data : ℕ → ℤ) : ℝ :=
  let pR := 1 - Real.exp (-params 4)
  ∑ t ∈ Finset.range T, Real.log (binomPMF (data t) pR (x t) + epsilon)

/-- `sample_D_mild(D_mild, [I_mild, I_wild, C, N], inits, params, t_ctrl,
epsilon)`: one Metropolis step on `D_mild`; afterwards `P` is recomputed
unconditionally from the returned `I_mild`.
Returns `(D_mild, I_mild, P, log_prob_new, log_prob_old)`. -/
noncomputable def sample_D_mild (T : ℕ) (D_mild I_mild I_wild C N : ℕ → ℤ)
    (e0 i_mild0 i_wild0 : ℤ) (params : Fin 7 → ℝ) (t_ctrl : ℕ) (epsilon : ℝ)
    (u : ℝ) (attempts : List Attempt) : (ℕ → ℤ) × (ℕ → ℤ) × (ℕ → ℝ) × ℝ × ℝ :=
  let fn := sample_D_mild_fn T params epsilon
  let data_fn := sample_D_mild_data_fn i_mild0 C params
  let conditions_fn := sample_D_mild_conditions T
  let proposal := fun x data cf r => sample_x cf data_fn x data r
  let r := metropolis_hastings D_mild I_mild fn proposal conditions_fn [(u, attempts)]
  let P := compute_P (transmission_rate (params 0) (params 1) t_ctrl T) r.2.1 I_wild N
  (r.1, r.2.1, P, r.2.2.1, r.2.2.2)

/-- The auxiliary data of the parameter sampler:
`[S, E, I_mild, I_wild, P, N]`. -/
structure SPData where
  S : ℕ → ℤ
  E : ℕ → ℤ
  I_mild : ℕ → ℤ
  I_wild : ℕ → ℤ
  P : ℕ → ℝ
  N : ℕ → ℤ

/-- The log-density closure `fn` of `sample_params`: binomial log-likelihoods
of `B`, `C`, `D_mild`, `D_wild` plus the Gamma log-priors of the seven
parameters. -/
noncomputable def sp_fn (T : ℕ) (B C D_mild D_wild : ℕ → ℤ) (priors : Fin 7 → ℝ × ℝ)
    (epsilon : ℝ) (x : Fin 7 → ℝ) (data : SPData) : ℝ :=
  let pC := 1 - Real.exp (-x 3)
  let pR_mild := 1 - Real.exp (-x 4)
  let pR_wild := 1 - Real.exp (-x 5)
  let logB := ∑ t ∈ Finset.range T, Real.log (binomPMF (data.S t) (data.P t) (B t) + epsilon)
  let logC := ∑ t ∈ Finset.range T, Real.log (binomPMF (data.E t) pC (C t) + epsilon)
  let logD_mild :=
    ∑ t ∈ Finset.range T, Real.log (binomPMF (data.I_mild t) pR_mild (D_mild t) + epsilon)
  let logD_wild :=
    ∑ t ∈ Finset.range T, Real.log (binomPMF (data.I_wild t) pR_wild (D_wild t) + epsilon)
  let log_prior := ∑ i : Fin 7, Real.log (gammaPDF (priors i).1 (priors i).2 (x i) + epsilon)
  logB + logC + logD_mild + logD_wild + log_prior

/-- The candidate data built inside the proposal loop of `sample_params` for
a drawn parameter vector `x_new`: rescale `N` by `old_k / k_new` (clamped
below at 1) and recompute `S`, `E`, `I_mild`, `I_wild`, `P`. -/
noncomputable def sp_candidate_data (T : ℕ) (B C D_mild D_wild N : ℕ → ℤ)
    (e0 i_mild0 i_wild0 : ℤ) (t_ctrl : ℕ) (old_k : ℝ) (x_new : Fin 7 → ℝ) : SPData :=
  let N_new : ℕ → ℤ := fun t => max 1 (round_int ((N t : ℝ) * old_k / x_new 6))
  let I_mild_new := compute_I i_mild0 (fun τ => round_int ((C τ : ℝ) * x_new 2)) D_mild
  let I_wild_new := compute_I i_wild0 (fun τ => C τ - round_int ((C τ : ℝ) * x_new 2)) D_wild
  ⟨compute_S e0 i_mild0 i_wild0 B N_new, compute_E e0 B C, I_mild_new, I_wild_new,
    compute_P (transmission_rate (x_new 0) (x_new 1) t_ctrl T) I_mild_new I_wild_new N_new, N_new⟩

/-- The `conditions_fn` closure of `sample_params`: all parameters strictly
positive, the recomputed `S, E, I_mild, I_wild` non-negative, and every
parameter inside its configured `[low, high]` bound. -/
noncomputable def sp_conditions (T : ℕ) (bounds : Fin 7 → ℝ × ℝ)
    (x : Fin 7 → ℝ) (data : SPData) : Bool :=
  decide (∀ i : Fin 7, 0 < x i) &&
    (decide (∀ t : Fin T, 0 ≤ data.S t.val) && decide (∀ t : Fin T, 0 ≤ data.E t.val) &&
      decide (∀ t : Fin T, 0 ≤ data.I_mild t.val) && decide (∀ t : Fin T, 0 ≤ data.I_wild t.val)) &&
    decide (∀ i : Fin 7, (bounds i).1 ≤ x i ∧ x i ≤ (bounds i).2)

/-- The retry loop of the proposal of `sample_params`: each oracle entry is
one Gaussian random-walk draw `x_new`; the first draw whose candidate data
passes `conditions_fn` is returned; on exhaustion (100 draws in the source)
the unchanged `x, data` is returned. -/
noncomputable def sp_proposal_loop (T : ℕ) (B C D_mild D_wild : ℕ → ℤ)
    (e0 i_mild0 i_wild0 : ℤ) (t_ctrl : ℕ) (old_k : ℝ)
    (x : Fin 7 → ℝ) (data : SPData) (conditions_fn : (Fin 7 → ℝ) → SPData → Bool) :
    List (Fin 7 → ℝ) → (Fin 7 → ℝ) × SPData
  | [] => (x, data)
  | x_new :: rest =>
      let data_new := sp_candidate_data T B C D_mild D_wild data.N e0 i_mild0 i_wild0 t_ctrl old_k x_new
      if conditions_fn x_new data_new then (x_new, data_new)
      else sp_proposal_loop T B C D_mild D_wild e0 i_mild0 i_wild0 t_ctrl old_k x data conditions_fn rest

/-- The result record of `sample_params`: the (possibly updated) parameter
vector, the matching derived arrays, the diagnostic `R0t` vector and the two
log-densities. -/
structure SPResult where
  params : Fin 7 → ℝ
  S : ℕ → ℤ
  E : ℕ → ℤ
  I_mild : ℕ → ℤ
  I_wild : ℕ → ℤ
  P : ℕ → ℝ
  N : ℕ → ℤ
  R0t : ℕ → ℝ
  log_prob_new : ℝ
  log_prob_old : ℝ

/-- `sample_params(params, [S, E, I_mild, I_wild, B, C, D_mild, D_wild, P, N],
inits, priors, rand_walk_stds, t_ctrl, epsilon, bounds)`: one Metropolis step
on the 7-parameter vector; afterwards the code computes
`R0t = t_rate / (delta*gamma_mild + (1-delta)*gamma_wild) * S / N` from the
updated parameter vector but from the `S` and `N` bound *before* the data of
the Metropolis result is unpacked. -/
noncomputable def sample_params (T : ℕ) (params : Fin 7 → ℝ)
    (S E I_mild I_wild B C D_mild D_wild : ℕ → ℤ) (P : ℕ → ℝ) (N : ℕ → ℤ)
    (e0 i_mild0 i_wild0 : ℤ) (priors : Fin 7 → ℝ × ℝ) (rand_walk_stds : Fin 7 → ℝ)
    (t_ctrl : ℕ) (epsilon : ℝ) (bounds : Fin 7 → ℝ × ℝ)
    (u : ℝ) (draws : List (Fin 7 → ℝ)) : SPResult :=
  let old_k := params 6
  let data : SPData := ⟨S, E, I_mild, I_wild, P, N⟩
  let fn := sp_fn T B C D_mild D_wild priors epsilon
  let conditions_fn := sp_conditions T bounds
  let proposal := fun x d cf r =>
    sp_proposal_loop T B C D_mild D_wild e0 i_mild0 i_wild0 t_ctrl old_k x d cf r
  let r := metropolis_hastings params data fn proposal conditions_fn [(u, draws)]
  let params_new := r.1
  let t_rate := transmission_rate (params_new 0) (params_new 1) t_ctrl T
  let R0t := fun t =>
    t_rate t / (params_new 2 * params_new 4 + (1 - params_new 2) * params_new 5)
      * (S t : ℝ) / (N t : ℝ)
  ⟨params_new, r.2.1.S, r.2.1.E, r.2.1.I_mild, r.2.1.I_wild, r.2.1.P, r.2.1.N,
    R0t, r.2.2.1, r.2.2.2⟩

/-- The `B`-update of one training iteration (`train`, line
`B, S, E, … = sample_B(B, [S, E, I_mild, I_wild, C, P, N], …)`). -/
noncomputable def trainStepB (T : ℕ) (st : SEIRState) (e0 i_mild0 i_wild0 : ℤ)
    (params : Fin 7 → ℝ) (t_ctrl : ℕ) (epsilon u : ℝ) (attempts : List Attempt) : SEIRState :=
  let r := sample_B T st.B st.S st.E st.I_mild st.I_wild st.C st.P st.N
    e0 i_mild0 i_wild0 params t_ctrl epsilon u attempts
  { st with B := r.1, S := r.2.1.S, E := r.2.1.E }

/-- The `C`-update of one training iteration (`train`, line
`C, E, I_mild, I_wild, P, _, _ = sample_C(…)`). -/
noncomputable def trainStepC (T : ℕ) (st : SEIRState) (e0 i_mild0 i_wild0 : ℤ)
    (params : Fin 7 → ℝ) (t_ctrl : ℕ) (epsilon u : ℝ) (attempts : List Attempt) : SEIRState :=
  let r := sample_C T st.C st.E st.I_mild st.I_wild st.D_mild st.D_wild st.B st.N st.P
    e0 i_mild0 i_wild0 params t_ctrl epsilon u attempts
  { st with C := r.1, E := r.2.1.E, I_mild := r.2.1.I_mild, I_wild := r.2.1.I_wild, P := r.2.1.P }

/-- The `D_mild`-update of one training iteration (`train`, line
`D_mild, I_mild, P, _, _ = sample_D_mild(…)`). -/
noncomputable def trainStepD_mild (T : ℕ) (st : SEIRState) (e0 i_mild0 i_wild0 : ℤ)
    (params : Fin 7 → ℝ) (t_ctrl : ℕ) (epsilon u : ℝ) (attempts : List Attempt) : SEIRState :=
  let r := sample_D_mild T st.D_mild st.I_mild st.I_wild st.C st.N
    e0 i_mild0 i_wild0 params t_ctrl epsilon u attempts
  { st with D_mild := r.1, I_mild := r.2.1, P := r.2.2.1 }

/-- The parameter update of one training iteration (`train`, line
`params, S, E, I_mild, I_wild, P, N, R0t, … = sample_params(…)`); returns the
new state together with the new parameter vector and the `R0t` diagnostic. -/
noncomputable def trainStepParams (T : ℕ) (st : SEIRState) (e0 i_mild0 i_wild0 : ℤ)
    (params : Fin 7 → ℝ) (priors : Fin 7 → ℝ × ℝ) (rand_walk_stds : Fin 7 → ℝ)
    (t_ctrl : ℕ) (epsilon : ℝ) (bounds : Fin 7 → ℝ × ℝ)
    (u : ℝ) (draws : List (Fin 7 → ℝ)) : SEIRState × (Fin 7 → ℝ) × (ℕ → ℝ) :=
  let r := sample_params T params st.S st.E st.I_mild st.I_wild st.B st.C st.D_mild st.D_wild
    st.P st.N e0 i_mild0 i_wild0 priors rand_walk_stds t_ctrl epsilon bounds u draws
  ({ st with S := r.S, E := r.E, I_mild := r.I_mild, I_wild := r.I_wild, P := r.P, N := r.N },
    r.params, r.R0t)

/-- The aggregate basic reproduction number computed per saved sample at the
end of `train`, exactly as the code indexes the parameter vector:
`(sum(D_mild)+sum(D_wild)) * p[0] / (sum(D_mild)*p[3] + sum(D_wild)*p[4])`. -/
noncomputable def R0_aggregate (T : ℕ) (D_mild D_wild : ℕ → ℤ) (p : Fin 7 → ℝ) : ℝ :=
  (((∑ t ∈ Finset.range T, D_mild t) + ∑ t ∈ Finset.range T, D_wild t : ℤ) : ℝ) * p 0 /
    (((∑ t ∈ Finset.range T, D_mild t : ℤ) : ℝ) * p 3 +
      ((∑ t ∈ Finset.range T, D_wild t : ℤ) : ℝ) * p 4)

/-- Modelled from the spec: the aggregate basic reproduction number written
with the removal-rate components, `R0 = (ΣD_mild + ΣD_wild)·beta /
(ΣD_mild·gamma_mild + ΣD_wild·gamma_wild)`, i.e. `p[4]` and `p[5]` of the
saved sample. -/
noncomputable def R0_aggregate_spec (T : ℕ) (D_mild D_wild : ℕ → ℤ) (p : Fin 7 → ℝ) : ℝ :=
  (((∑ t ∈ Finset.range T, D_mild t) + ∑ t ∈ Finset.range T, D_wild t : ℤ) : ℝ) * p 0 /
    (((∑ t ∈ Finset.range T, D_mild t : ℤ) : ℝ) * p 4 +
      ((∑ t ∈ Finset.range T, D_wild t : ℤ) : ℝ) * p 5)

/-! ### Concrete instances used in scenario and counterexample statements -/

/-- A latent series with entries `160, 79` (horizon 2). -/
def exB1 : ℕ → ℤ := fun t => if t = 0 then 160 else if t = 1 then 79 else 0

/-- A proportional-branch attempt (`one_off = 0`) with sources `{0, 1}` and
destinations `{0, 1}`. -/
def exA1 : Attempt := ⟨{0, 1}, {0, 1}, false⟩

/-- The susceptible series consistent with `exB1` and population `1000`. -/
def exS1 : ℕ → ℤ := fun t => if t = 0 then 1000 else 840

/-- The exposed series consistent with `exB1`, `e0 = 0` and `C = 0`. -/
def exE1 : ℕ → ℤ := fun t => if t = 0 then 0 else 160

/-- The pre-step state of the C5 counterexample (horizon 3):
`B = C = [2,0,1]`, `D_mild = 0`, `D_wild = [2,0,0]`, `N = [9,9,9]`, and the
derived `S = [9,7,7]`, `E = [10,10,10]`, `I_mild = I_wild = 0`, `P = 0`,
consistent with `e0 = 10`, `i_mild0 = i_wild0 = 0` and the parameter vector
`c5params` below. -/
noncomputable def c5St : SEIRState :=
  ⟨fun t => if t = 0 then 9 else 7, fun _ => 10, fun _ => 0, fun _ => 0,
    fun t => if t = 0 then 2 else if t = 2 then 1 else 0,
    fun t => if t = 0 then 2 else if t = 2 then 1 else 0,
    fun _ => 0, fun t => if t = 0 then 2 else 0, fun _ => 0, fun _ => 9⟩

/-- The parameter vector of the C5 counterexample: a *negative* transmission
rate `beta = -1` (the representation invariant of the source does not
constrain the parameters, so this state satisfies it). -/
noncomputable def c5params : Fin 7 → ℝ := ![-1, 1, 0, 1, 1, 1, 1]

/-- The unit-swap attempt of the C5 counterexample: sources `{0, 2}` of the
series `C = [2,0,1]` (all its nonzero sites, as the code draws them) and
destinations `{0, 1}`. -/
def c5A : Attempt := ⟨{0, 2}, {0, 1}, true⟩

/-- A uniform draw small enough to force acceptance of a candidate whose
log-likelihood difference is bounded below by `3*(log ε - log(1+ε))`
(each of the 3 summands of the two log-likelihoods lies between `log ε` and
`log (1+ε)` because a binomial pmf lies in `[0,1]`). -/
noncomputable def c5u : ℝ := Real.exp (3 * (Real.log (1e-16) - Real.log (1 + 1e-16)))

/-- The pre-step parameter vector of the C3 counterexample. -/
noncomputable def c3params : Fin 7 → ℝ := ![1, 1, 1/2, 1, 1/2, 1/2, 1]

/-- The Gaussian random-walk draw of the C3 counterexample: only the
population-scaling factor `k` changes (from `1` to `1/2`), which rescales `N`
from `5` to `10` and therefore changes the recomputed `S`. -/
noncomputable def c3draw : Fin 7 → ℝ := ![1, 1, 1/2, 1, 1/2, 1/2, 1/2]

/-- The latent series `B = [1, 0]` of the C3 counterexample. -/
def c3B : ℕ → ℤ := fun t => if t = 0 then 1 else 0

/-- The susceptible series `S = [5, 4]` of the C3 counterexample, consistent
with `B = [1, 0]` and `N = [5, 5]`. -/
def c3S : ℕ → ℤ := fun t => if t = 0 then 5 else 4

/-- The exposed series `E = [1, 2]` of the C3 counterexample, consistent with
`e0 = 1`, `B = [1, 0]` and `C = 0`. -/
def c3E : ℕ → ℤ := fun t => if t = 0 then 1 else 2

/-! ### Helper lemmas -/

theorem binomPMF_nonneg (n : ℤ) (p : ℝ) (k : ℤ) (h0 : 0 ≤ p) (h1 : p ≤ 1) :
    0 ≤ binomPMF n p k := by
  unfold binomPMF
  split
  · have h1p : (0:ℝ) ≤ 1 - p := by linarith
    have := pow_nonneg h0 k.toNat
    have := pow_nonneg h1p (n - k).toNat
    positivity
  · exact le_refl 0

theorem binomPMF_le_one (n : ℤ) (p : ℝ) (k : ℤ) (h0 : 0 ≤ p) (h1 : p ≤ 1) :
    binomPMF n p k ≤ 1 := by
  unfold binomPMF
  split
  case isTrue h =>
    obtain ⟨hk0, hkn⟩ := h
    have h1p : (0:ℝ) ≤ 1 - p := by linarith
    set m := n.toNat
    set j := k.toNat
    have hjm : j ≤ m := Int.toNat_le_toNat hkn
    have hnk : (n - k).toNat = m - j := by
      omega
    rw [hnk]
    have key : ∑ i ∈ Finset.range (m + 1), p ^ i * (1 - p) ^ (m - i) * (m.choose i : ℝ) = 1 := by
      rw [← add_pow]
      norm_num
    calc (m.choose j : ℝ) * p ^ j * (1 - p) ^ (m - j)
        = p ^ j * (1 - p) ^ (m - j) * (m.choose j : ℝ) := by ring
      _ ≤ ∑ i ∈ Finset.range (m + 1), p ^ i * (1 - p) ^ (m - i) * (m.choose i : ℝ) := by
          apply Finset.single_le_sum (f := fun i => p ^ i * (1 - p) ^ (m - i) * (m.choose i : ℝ))
          · intro i _
            have := pow_nonneg h0 i
            have := pow_nonneg h1p (m - i)
            positivity
          · exact Finset.mem_range.mpr (Nat.lt_succ_of_le hjm)
      _ = 1 := key
  case isFalse h => norm_num

theorem log_term_bounds (f epsilon : ℝ) (h0 : 0 ≤ f) (h1 : f ≤ 1) (hε : 0 < epsilon) :
    Real.log epsilon ≤ Real.log (f + epsilon) ∧
      Real.log (f + epsilon) ≤ Real.log (1 + epsilon) := by
  constructor
  · exact Real.log_le_log hε (by linarith)
  · exact Real.log_le_log (by linarith) (by linarith)

theorem sum_log_bounds (T : ℕ) (f : ℕ → ℝ) (epsilon : ℝ)
    (hf : ∀ t < T, 0 ≤ f t ∧ f t ≤ 1) (hε : 0 < epsilon) :
    (T : ℝ) * Real.log epsilon ≤ (∑ t ∈ Finset.range T, Real.log (f t + epsilon)) ∧
      (∑ t ∈ Finset.range T, Real.log (f t + epsilon)) ≤ (T : ℝ) * Real.log (1 + epsilon) := by
  have h1 : ∀ t ∈ Finset.range T, Real.log epsilon ≤ Real.log (f t + epsilon) := by
    intro t ht
    exact (log_term_bounds (f t) epsilon (hf t (Finset.mem_range.mp ht)).1
      (hf t (Finset.mem_range.mp ht)).2 hε).1
  have h2 : ∀ t ∈ Finset.range T, Real.log (f t + epsilon) ≤ Real.log (1 + epsilon) := by
    intro t ht
    exact (log_term_bounds (f t) epsilon (hf t (Finset.mem_range.mp ht)).1
      (hf t (Finset.mem_range.mp ht)).2 hε).2
  constructor
  · have := Finset.sum_le_sum h1
    simpa [Finset.sum_const, Finset.card_range, nsmul_eq_mul] using this
  · have := Finset.sum_le_sum h2
    simpa [Finset.sum_const, Finset.card_range, nsmul_eq_mul] using this

theorem transmission_rate_nonneg (beta q : ℝ) (t_ctrl t_end : ℕ) (h : 0 ≤ beta) (t : ℕ) :
    0 ≤ transmission_rate beta q t_ctrl t_end t := by
  unfold transmission_rate
  split
  · exact mul_nonneg h (Real.exp_nonneg _)
  · exact h

theorem compute_P_mem (trans_rate : ℕ → ℝ) (I_mild I_wild N : ℕ → ℤ) (t : ℕ)
    (hr : 0 ≤ trans_rate t) (hIm : 0 ≤ I_mild t) (hIw : 0 ≤ I_wild t) (hN : 0 < N t) :
    0 ≤ compute_P trans_rate I_mild I_wild N t ∧ compute_P trans_rate I_mild I_wild N t ≤ 1 := by
  have hcast : (0:ℝ) ≤ ((I_mild t + I_wild t : ℤ) : ℝ) := by
    exact_mod_cast add_nonneg hIm hIw
  have hNpos : (0:ℝ) < ((N t : ℤ) : ℝ) := by exact_mod_cast hN
  have hz : 0 ≤ trans_rate t * ((I_mild t + I_wild t : ℤ) : ℝ) / ((N t : ℤ) : ℝ) :=
    div_nonneg (mul_nonneg hr hcast) hNpos.le
  unfold compute_P
  constructor
  · have hexp : Real.exp (-trans_rate t * ((I_mild t + I_wild t : ℤ) : ℝ) / ((N t : ℤ) : ℝ)) ≤ 1 := by
      rw [Real.exp_le_one_iff, neg_mul, neg_div]
      linarith
    linarith
  · have := Real.exp_nonneg (-trans_rate t * ((I_mild t + I_wild t : ℤ) : ℝ) / ((N t : ℤ) : ℝ))
    linarith

theorem undo_apply (x : ℕ → ℤ) (a : Attempt) : undo_move (apply_move x a) x a = x := by
  funext i
  unfold undo_move apply_move
  ring

theorem sample_x_fail_cons {δ : Type} (conditions_fn : (ℕ → ℤ) → δ → Bool)
    (data_fn : (ℕ → ℤ) → δ) (x : ℕ → ℤ) (data : δ) (a : Attempt) (rest : List Attempt)
    (h : conditions_fn (apply_move x a) (data_fn (apply_move x a)) = false) :
    sample_x conditions_fn data_fn x data (a :: rest) =
      sample_x conditions_fn data_fn x data rest := by
  show (if conditions_fn (apply_move x a) (data_fn (apply_move x a)) then _ else _) = _
  rw [h]
  simp only [Bool.false_eq_true, if_false]
  rw [undo_apply]

theorem sample_x_pass_cons {δ : Type} (conditions_fn : (ℕ → ℤ) → δ → Bool)
    (data_fn : (ℕ → ℤ) → δ) (x : ℕ → ℤ) (data : δ) (a : Attempt) (rest : List Attempt)
    (h : conditions_fn (apply_move x a) (data_fn (apply_move x a)) = true) :
    sample_x conditions_fn data_fn x data (a :: rest) =
      (apply_move x a, data_fn (apply_move x a)) := by
  show (if conditions_fn (apply_move x a) (data_fn (apply_move x a)) then _ else _) = _
  rw [h]
  simp only [if_true]

theorem sample_x_cases {δ : Type} (conditions_fn : (ℕ → ℤ) → δ → Bool)
    (data_fn : (ℕ → ℤ) → δ) (x : ℕ → ℤ) (data : δ) (attempts : List Attempt) :
    sample_x conditions_fn data_fn x data attempts = (x, data) ∨
      ∃ a ∈ attempts,
        sample_x conditions_fn data_fn x data attempts =
          (apply_move x a, data_fn (apply_move x a)) ∧
        conditions_fn (apply_move x a) (data_fn (apply_move x a)) = true := by
  induction attempts with
  | nil => left; rfl
  | cons a rest ih =>
      by_cases h : conditions_fn (apply_move x a) (data_fn (apply_move x a)) = true
      · right
        exact ⟨a, List.mem_cons_self a rest, sample_x_pass_cons _ _ _ _ _ _ h, h⟩
      · rw [sample_x_fail_cons _ _ _ _ _ _ (Bool.not_eq_true _ ▸ h)]
        rcases ih with h1 | ⟨b, hb, h2, h3⟩
        · left; exact h1
        · right; exact ⟨b, List.mem_cons_of_mem a hb, h2, h3⟩

theorem sample_x_all_fail {δ : Type} (conditions_fn : (ℕ → ℤ) → δ → Bool)
    (data_fn : (ℕ → ℤ) → δ) (x : ℕ → ℤ) (data : δ) (attempts : List Attempt)
    (h : ∀ a ∈ attempts, conditions_fn (apply_move x a) (data_fn (apply_move x a)) = false) :
    sample_x conditions_fn data_fn x data attempts = (x, data) := by
  induction attempts with
  | nil => rfl
  | cons a rest ih =>
      rw [sample_x_fail_cons _ _ _ _ _ _ (h a (List.mem_cons_self a rest))]
      exact ih (fun b hb => h b (List.mem_cons_of_mem a hb))

theorem apply_move_nonneg (x : ℕ → ℤ) (a : Attempt) (i : ℕ)
    (hx : 0 ≤ x i) (hsrc : i ∈ a.t_new → 1 ≤ x i) :
    0 ≤ apply_move x a i := by
  unfold apply_move change_subs change_add
  have hdiv80 : Int.fdiv (x i) 80 ≤ x i := by
    rw [Int.fdiv_eq_ediv (x i) (by norm_num)]
    exact Int.ediv_le_self 80 hx
  have hdiv80n : 0 ≤ Int.fdiv (x i) 80 := Int.fdiv_nonneg hx (by norm_num)
  have hdiv79n : 0 ≤ Int.fdiv (x i) 79 := Int.fdiv_nonneg hx (by norm_num)
  by_cases hs : i ∈ a.t_new <;> by_cases hd : i ∈ a.t_tilde <;>
    cases ha : a.one_off <;> simp [hs, hd, ha] <;> first
      | linarith [hsrc hs]
      | linarith

theorem apply_move_sum (T : ℕ) (x : ℕ → ℤ) (a : Attempt)
    (hsrc : a.t_new ⊆ Finset.range T) (hdst : a.t_tilde ⊆ Finset.range T)
    (hcard : a.t_tilde.card = a.t_new.card) (hunit : a.one_off = true) :
    ∑ t ∈ Finset.range T, apply_move x a t = ∑ t ∈ Finset.range T, x t := by
  unfold apply_move change_subs change_add
  rw [Finset.sum_add_distrib, Finset.sum_sub_distrib]
  rw [Finset.sum_ite_mem, Finset.sum_ite_mem]
  rw [Finset.inter_eq_right.mpr hsrc, Finset.inter_eq_right.mpr hdst]
  simp [hunit, hcard]

theorem mh_single_step {α β ρ : Type} (x : α) (d : β) (fn : α → β → ℝ)
    (proposal : α → β → (α → β → Bool) → ρ → α × β) (conditions_fn : α → β → Bool)
    (u : ℝ) (r : ρ) :
    metropolis_hastings x d fn proposal conditions_fn [(u, r)] =
      if Real.log u ≤ min 0 (fn (proposal x d conditions_fn r).1 (proposal x d conditions_fn r).2
          - fn x d) then
        ((proposal x d conditions_fn r).1, (proposal x d conditions_fn r).2,
          fn (proposal x d conditions_fn r).1 (proposal x d conditions_fn r).2, fn x d)
      else (x, d, fn x d, fn x d) := by
  show (let s := mh_loop fn proposal conditions_fn [(u, r)] (x, d); (s.1, s.2, fn s.1 s.2, fn x d)) = _
  unfold mh_loop
  split
  · rename_i h
    simp only [mh_loop]
    rw [if_pos h]
  · rename_i h
    simp only [mh_loop]
    rw [if_neg h]

theorem sp_loop_cases (T : ℕ) (B C D_mild D_wild : ℕ → ℤ) (e0 i_mild0 i_wild0 : ℤ)
    (t_ctrl : ℕ) (old_k : ℝ) (x : Fin 7 → ℝ) (data : SPData)
    (conditions_fn : (Fin 7 → ℝ) → SPData → Bool) (draws : List (Fin 7 → ℝ)) :
    sp_proposal_loop T B C D_mild D_wild e0 i_mild0 i_wild0 t_ctrl old_k x data
        conditions_fn draws = (x, data) ∨
      ∃ x_new ∈ draws,
        sp_proposal_loop T B C D_mild D_wild e0 i_mild0 i_wild0 t_ctrl old_k x data
            conditions_fn draws =
          (x_new, sp_candidate_data T B C D_mild D_wild data.N e0 i_mild0 i_wild0 t_ctrl old_k x_new) ∧
        conditions_fn x_new
          (sp_candidate_data T B C D_mild D_wild data.N e0 i_mild0 i_wild0 t_ctrl old_k x_new) = true := by
  have cons_eq : ∀ (a : Fin 7 → ℝ) (rest : List (Fin 7 → ℝ)),
      sp_proposal_loop T B C D_mild D_wild e0 i_mild0 i_wild0 t_ctrl old_k x data
          conditions_fn (a :: rest) =
        if conditions_fn a
            (sp_candidate_data T B C D_mild D_wild data.N e0 i_mild0 i_wild0 t_ctrl old_k a) then
          (a, sp_candidate_data T B C D_mild D_wild data.N e0 i_mild0 i_wild0 t_ctrl old_k a)
        else sp_proposal_loop T B C D_mild D_wild e0 i_mild0 i_wild0 t_ctrl old_k x data
          conditions_fn rest := fun _ _ => rfl
  induction draws with
  | nil => left; rfl
  | cons a rest ih =>
      rw [cons_eq a rest]
      by_cases h : conditions_fn a
          (sp_candidate_data T B C D_mild D_wild data.N e0 i_mild0 i_wild0 t_ctrl old_k a) = true
      · right
        refine ⟨a, List.mem_cons_self a rest, ?_, h⟩
        rw [h]
        simp only [if_true]
      · rw [Bool.not_eq_true] at h
        rw [h]
        simp only [Bool.false_eq_true, if_false]
        rcases ih with h1 | ⟨b, hb, h2, h3⟩
        · left; exact h1
        · right; exact ⟨b, List.mem_cons_of_mem a hb, h2, h3⟩

/-! ### Claim theorems -/

/-- Claim C10: the output of `compute_S(e0, i_mild0, i_wild0, B, N)` does not
depend on its first three arguments — any two init triples give the identical
susceptible sequence — and the value at day `t` is
`N(0) - Σ_{τ<t} B(τ) + N(t) - N(0)`; the init values influence only the other
derived series. -/
theorem claim_C10_compute_S_ignores_inits (e0 i_mild0 i_wild0 e0a i_mild0a i_wild0a : ℤ)
    (B N : ℕ → ℤ) (t : ℕ) :
    compute_S e0 i_mild0 i_wild0 B N t = compute_S e0a i_mild0a i_wild0a B N t ∧
    compute_S e0 i_mild0 i_wild0 B N t = N 0 - (∑ τ ∈ Finset.range t, B τ) + N t - N 0 :=
  ⟨rfl, rfl⟩

/-- Claim C8: `transmission_rate(beta, q, t_ctrl, t_end)` equals `beta` on
days before `t_ctrl` and `beta*exp(-q*(t-t_ctrl))` on days at/after `t_ctrl`;
when `t_ctrl ≥ t_end` the whole sequence is the constant `beta`; and in the
concrete scenarios `transmission_rate(2.0, 0.1, 3, 3)` is constantly `2.0`
while `transmission_rate(2.0, 0.1, 0, 3) = [2, 2*exp(-0.1), 2*exp(-0.2)]`. -/
theorem claim_C8_transmission_rate (beta q : ℝ) (t_ctrl t_end : ℕ) (h_end : 1 ≤ t_end) :
    (∀ t < t_end, transmission_rate beta q t_ctrl t_end t =
      if t < t_ctrl then beta else beta * Real.exp (-q * ((t - t_ctrl : ℕ) : ℝ))) ∧
    (t_end ≤ t_ctrl → ∀ t < t_end, transmission_rate beta q t_ctrl t_end t = beta) ∧
    (∀ t < 3, transmission_rate 2 (1/10) 3 3 t = 2) ∧
    transmission_rate 2 (1/10) 0 3 0 = 2 ∧
    transmission_rate 2 (1/10) 0 3 1 = 2 * Real.exp (-(1/10)) ∧
    transmission_rate 2 (1/10) 0 3 2 = 2 * Real.exp (-(2/10)) := by
  refine ⟨?_, ?_, ?_, ?_, ?_, ?_⟩
  · intro t ht
    rcases lt_or_le t t_ctrl with hlt | hge
    · rw [if_pos hlt]
      unfold transmission_rate
      rw [if_neg (by omega)]
    · rw [if_neg (by omega)]
      unfold transmission_rate
      rw [if_pos ⟨by omega, hge⟩]
  · intro hle t ht
    unfold transmission_rate
    rw [if_neg (by omega)]
  · intro t ht
    unfold transmission_rate
    rw [if_neg (by omega)]
  · unfold transmission_rate
    rw [if_pos ⟨by omega, by omega⟩]
    norm_num
  · unfold transmission_rate
    rw [if_pos ⟨by omega, by omega⟩]
    norm_num
  · unfold transmission_rate
    rw [if_pos ⟨by omega, by omega⟩]
    have : ((2 - 0 : ℕ) : ℝ) = 2 := by norm_num
    rw [this]
    ring_nf

/-- Witness for C8 at a concrete input: `t_end = 3 ≥ 1`, and
`transmission_rate(5, 1, 2, 3)` equals `5` on day `1 < t_ctrl = 2`. -/
theorem claim_C8_transmission_rate_witness :
    (1 : ℕ) ≤ 3 ∧ transmission_rate 5 1 2 3 1 = 5 := by
  constructor
  · norm_num
  · have h := (claim_C8_transmission_rate 5 1 2 3 (by norm_num)).1 1 (by norm_num)
    simpa using h

/-- Claim C9: for a non-negative transmission rate, non-negative infectious
counts with `I_mild + I_wild ≤ N`, and positive `N`, every entry of
`compute_P` lies in `[0, 1]`. -/
theorem claim_C9_compute_P_bounds (T : ℕ) (trans_rate : ℕ → ℝ) (I_mild I_wild N : ℕ → ℤ)
    (hr : ∀ t < T, 0 ≤ trans_rate t) (hIm : ∀ t < T, 0 ≤ I_mild t)
    (hIw : ∀ t < T, 0 ≤ I_wild t) (hsum : ∀ t < T, I_mild t + I_wild t ≤ N t)
    (hN : ∀ t < T, 0 < N t) :
    ∀ t < T, 0 ≤ compute_P trans_rate I_mild I_wild N t ∧
      compute_P trans_rate I_mild I_wild N t ≤ 1 := by
  intro t ht
  exact compute_P_mem trans_rate I_mild I_wild N t (hr t ht) (hIm t ht) (hIw t ht) (hN t ht)

/-- Witness for C9 at a concrete input: constant rate `1`, zero infectious
counts, population `5`, horizon `1`. -/
theorem claim_C9_compute_P_bounds_witness :
    0 ≤ compute_P (fun _ => 1) (fun _ => 0) (fun _ => 0) (fun _ => 5) 0 ∧
      compute_P (fun _ => 1) (fun _ => 0) (fun _ => 0) (fun _ => 5) 0 ≤ 1 :=
  claim_C9_compute_P_bounds 1 (fun _ => 1) (fun _ => 0) (fun _ => 0) (fun _ => 5)
    (fun _ _ => by norm_num) (fun _ _ => by norm_num) (fun _ _ => by norm_num)
    (fun _ _ => by norm_num) (fun _ _ => by norm_num) 0 (by norm_num)

/-- Claim C4 (code bug): the source's final check
`assert trans_rate.all() >= 0` compares the *boolean* result of `.all()` with
`0`, which always holds, so `transmission_rate` never raises; with
`beta = -2, q = 0.1, t_ctrl = 0, t_end = 3` the function returns normally a
sequence whose entry at day 0 is the negative value `-2`, contradicting the
claim that the function fails whenever the computed sequence has a negative
entry. -/
theorem claim_C4_assert_is_vacuous :
    (∀ (beta q : ℝ) (t_ctrl t_end : ℕ), transmission_rate_assert_holds beta q t_ctrl t_end) ∧
    transmission_rate (-2) (1/10) 0 3 0 = -2 ∧ transmission_rate (-2) (1/10) 0 3 0 < 0 := by
  refine ⟨?_, ?_, ?_⟩
  · intro beta q t_ctrl t_end
    unfold transmission_rate_assert_holds pyBoolToInt
    cases np_all t_end (transmission_rate beta q t_ctrl t_end) <;> norm_num
  · unfold transmission_rate
    rw [if_pos ⟨by omega, by omega⟩]
    norm_num
  · unfold transmission_rate
    rw [if_pos ⟨by omega, by omega⟩]
    norm_num

/-- Claim C6: one step of the Metropolis–Hastings driver accepts the
candidate `(x', data') = proposal(x, data)` exactly when
`log u ≤ min(0, fn(x',data') - fn(x,data))`; on rejection the sample and data
are returned unchanged; and in both cases the driver returns the (possibly
unchanged) sample, its data, the log-density of the returned sample, and the
log-density of the pre-step sample. -/
theorem claim_C6_metropolis_hastings_step {α β ρ : Type} (x : α) (d : β) (fn : α → β → ℝ)
    (proposal : α → β → (α → β → Bool) → ρ → α × β) (conditions_fn : α → β → Bool)
    (u : ℝ) (r : ρ) :
    metropolis_hastings x d fn proposal conditions_fn [(u, r)] =
      if Real.log u ≤ min 0 (fn (proposal x d conditions_fn r).1 (proposal x d conditions_fn r).2
          - fn x d) then
        ((proposal x d conditions_fn r).1, (proposal x d conditions_fn r).2,
          fn (proposal x d conditions_fn r).1 (proposal x d conditions_fn r).2, fn x d)
      else (x, d, fn x d, fn x d) :=
  mh_single_step x d fn proposal conditions_fn u r

/-- Claim C2 (code bug): at the end of `train` the per-sample aggregate
reproduction number is computed as
`(sum(D_mild)+sum(D_wild)) * p[0] / (sum(D_mild)*p[3] + sum(D_wild)*p[4])`,
where `p[3]` is `rho` and `p[4]` is `gamma_mild` — not the removal rates
`gamma_mild = p[4]` and `gamma_wild = p[5]` of the claim.  On the sample
`p = (1, 1, 1, 2, 3, 4, 1)` with `ΣD_mild = ΣD_wild = 1` the code yields
`2/5` while the claimed formula yields `2/7`. -/
theorem claim_C2_R0_aggregate_divergence :
    R0_aggregate 1 (fun _ => 1) (fun _ => 1) ![1, 1, 1, 2, 3, 4, 1] = 2 / 5 ∧
    R0_aggregate_spec 1 (fun _ => 1) (fun _ => 1) ![1, 1, 1, 2, 3, 4, 1] = 2 / 7 ∧
    R0_aggregate 1 (fun _ => 1) (fun _ => 1) ![1, 1, 1, 2, 3, 4, 1] ≠
      R0_aggregate_spec 1 (fun _ => 1) (fun _ => 1) ![1, 1, 1, 2, 3, 4, 1] := by
  have h0 : (![1, 1, 1, 2, 3, 4, 1] : Fin 7 → ℝ) 0 = 1 := rfl
  have h3 : (![1, 1, 1, 2, 3, 4, 1] : Fin 7 → ℝ) 3 = 2 := rfl
  have h4 : (![1, 1, 1, 2, 3, 4, 1] : Fin 7 → ℝ) 4 = 3 := rfl
  have h5 : (![1, 1, 1, 2, 3, 4, 1] : Fin 7 → ℝ) 5 = 4 := rfl
  unfold R0_aggregate R0_aggregate_spec
  rw [h0, h3, h4, h5]
  norm_num

theorem mh_sample_x_first {δ : Type} (x0 : ℕ → ℤ) (d0 : δ) (fn : (ℕ → ℤ) → δ → ℝ)
    (data_fn : (ℕ → ℤ) → δ) (cf : (ℕ → ℤ) → δ → Bool) (u : ℝ) (attempts : List Attempt) :
    ((metropolis_hastings x0 d0 fn (fun x data c r => sample_x c data_fn x data r) cf
        [(u, attempts)]).1 = x0 ∧
      (metropolis_hastings x0 d0 fn (fun x data c r => sample_x c data_fn x data r) cf
        [(u, attempts)]).2.1 = d0) ∨
    ∃ a ∈ attempts,
      (metropolis_hastings x0 d0 fn (fun x data c r => sample_x c data_fn x data r) cf
        [(u, attempts)]).1 = apply_move x0 a ∧
      (metropolis_hastings x0 d0 fn (fun x data c r => sample_x c data_fn x data r) cf
        [(u, attempts)]).2.1 = data_fn (apply_move x0 a) ∧
      cf (apply_move x0 a) (data_fn (apply_move x0 a)) = true := by
  rw [mh_single_step]
  split
  · rcases sample_x_cases cf data_fn x0 d0 attempts with h | ⟨a, ha, h1, h2⟩
    · left
      constructor
      · show (sample_x cf data_fn x0 d0 attempts).1 = x0
        rw [h]
      · show (sample_x cf data_fn x0 d0 attempts).2 = d0
        rw [h]
  
    · right
      refine ⟨a, ha, ?_, ?_, h2⟩
      · show (sample_x cf data_fn x0 d0 attempts).1 = apply_move x0 a
        rw [h1]
      · show (sample_x cf data_fn x0 d0 attempts).2 = data_fn (apply_move x0 a)
        rw [h1]
  · left
    exact ⟨rfl, rfl⟩

theorem sample_B_spec (T : ℕ) (B S E I_mild I_wild C : ℕ → ℤ) (P : ℕ → ℝ) (N : ℕ → ℤ)
    (e0 i_mild0 i_wild0 : ℤ) (params : Fin 7 → ℝ) (t_ctrl : ℕ) (epsilon u : ℝ)
    (attempts : List Attempt) :
    ((sample_B T B S E I_mild I_wild C P N e0 i_mild0 i_wild0 params t_ctrl epsilon
        u attempts).1 = B ∧
      (sample_B T B S E I_mild I_wild C P N e0 i_mild0 i_wild0 params t_ctrl epsilon
        u attempts).2.1 = ⟨S, E⟩) ∨
    ∃ a ∈ attempts,
      (sample_B T B S E I_mild I_wild C P N e0 i_mild0 i_wild0 params t_ctrl epsilon
        u attempts).1 = apply_move B a ∧
      (sample_B T B S E I_mild I_wild C P N e0 i_mild0 i_wild0 params t_ctrl epsilon
        u attempts).2.1 = sample_B_data_fn e0 i_mild0 i_wild0 C N (apply_move B a) ∧
      sample_B_conditions T (apply_move B a)
        (sample_B_data_fn e0 i_mild0 i_wild0 C N (apply_move B a)) = true :=
  mh_sample_x_first B (⟨S, E⟩ : BData) (sample_B_fn T P epsilon)
    (sample_B_data_fn e0 i_mild0 i_wild0 C N) (sample_B_conditions T) u attempts

theorem sample_C_spec (T : ℕ) (C E I_mild I_wild D_mild D_wild B N : ℕ → ℤ) (P : ℕ → ℝ)
    (e0 i_mild0 i_wild0 : ℤ) (params : Fin 7 → ℝ) (t_ctrl : ℕ) (epsilon u : ℝ)
    (attempts : List Attempt) :
    ((sample_C T C E I_mild I_wild D_mild D_wild B N P e0 i_mild0 i_wild0 params t_ctrl epsilon
        u attempts).1 = C ∧
      (sample_C T C E I_mild I_wild D_mild D_wild B N P e0 i_mild0 i_wild0 params t_ctrl epsilon
        u attempts).2.1 = ⟨E, I_mild, I_wild, P⟩) ∨
    ∃ a ∈ attempts,
      (sample_C T C E I_mild I_wild D_mild D_wild B N P e0 i_mild0 i_wild0 params t_ctrl epsilon
        u attempts).1 = apply_move C a ∧
      (sample_C T C E I_mild I_wild D_mild D_wild B N P e0 i_mild0 i_wild0 params t_ctrl epsilon
        u attempts).2.1 =
        sample_C_data_fn T e0 i_mild0 i_wild0 B D_mild D_wild N params t_ctrl (apply_move C a) ∧
      sample_C_conditions T (apply_move C a)
        (sample_C_data_fn T e0 i_mild0 i_wild0 B D_mild D_wild N params t_ctrl
          (apply_move C a)) = true :=
  mh_sample_x_first C (⟨E, I_mild, I_wild, P⟩ : CData) (sample_C_fn T params epsilon)
    (sample_C_data_fn T e0 i_mild0 i_wild0 B D_mild D_wild N params t_ctrl)
    (sample_C_conditions T) u attempts

theorem sample_D_mild_spec (T : ℕ) (D_mild I_mild I_wild C N : ℕ → ℤ)
    (e0 i_mild0 i_wild0 : ℤ) (params : Fin 7 → ℝ) (t_ctrl : ℕ) (epsilon u : ℝ)
    (attempts : List Attempt) :
    ((sample_D_mild T D_mild I_mild I_wild C N e0 i_mild0 i_wild0 params t_ctrl epsilon
        u attempts).1 = D_mild ∧
      (sample_D_mild T D_mild I_mild I_wild C N e0 i_mild0 i_wild0 params t_ctrl epsilon
        u attempts).2.1 = I_mild) ∨
    ∃ a ∈ attempts,
      (sample_D_mild T D_mild I_mild I_wild C N e0 i_mild0 i_wild0 params t_ctrl epsilon
        u attempts).1 = apply_move D_mild a ∧
      (sample_D_mild T D_mild I_mild I_wild C N e0 i_mild0 i_wild0 params t_ctrl epsilon
        u attempts).2.1 = sample_D_mild_data_fn i_mild0 C params (apply_move D_mild a) ∧
      sample_D_mild_conditions T (apply_move D_mild a)
        (sample_D_mild_data_fn i_mild0 C params (apply_move D_mild a)) = true := by
  have h := mh_sample_x_first D_mild I_mild (sample_D_mild_fn T params epsilon)
    (sample_D_mild_data_fn i_mild0 C params) (sample_D_mild_conditions T) u attempts
  rcases h with ⟨h1, h2⟩ | ⟨a, ha, h1, h2, h3⟩
  · left; exact ⟨h1, h2⟩
  · right; exact ⟨a, ha, h1, h2, h3⟩

theorem sample_D_mild_P_eq (T : ℕ) (D_mild I_mild I_wild C N : ℕ → ℤ)
    (e0 i_mild0 i_wild0 : ℤ) (params : Fin 7 → ℝ) (t_ctrl : ℕ) (epsilon u : ℝ)
    (attempts : List Attempt) :
    (sample_D_mild T D_mild I_mild I_wild C N e0 i_mild0 i_wild0 params t_ctrl epsilon
      u attempts).2.2.1 =
    compute_P (transmission_rate (params 0) (params 1) t_ctrl T)
      (sample_D_mild T D_mild I_mild I_wild C N e0 i_mild0 i_wild0 params t_ctrl epsilon
        u attempts).2.1 I_wild N := rfl

theorem mh_accepts {α β ρ : Type} (x : α) (d : β) (fn : α → β → ℝ)
    (proposal : α → β → (α → β → Bool) → ρ → α × β) (conditions_fn : α → β → Bool)
    (u : ℝ) (r : ρ) (x1 : α) (d1 : β) (hp : proposal x d conditions_fn r = (x1, d1))
    (hacc : Real.log u ≤ min 0 (fn x1 d1 - fn x d)) :
    metropolis_hastings x d fn proposal conditions_fn [(u, r)] = (x1, d1, fn x1 d1, fn x d) := by
  rw [mh_single_step, hp]
  dsimp only
  rw [if_pos hacc]

theorem binomPMF_zero_p (n k : ℤ) (hk : 0 < k) : binomPMF n 0 k = 0 := by
  unfold binomPMF
  split
  · have h : k.toNat ≠ 0 := by omega
    rw [zero_pow h]
    ring
  · rfl

/-- Claim C7: inside the single-site resampler, a candidate rejected by the
feasibility predicate is reverted exactly (the revert of the in-place changes
restores the working series bit-for-bit, so the retry continues from the
series as it was before the attempt), and when all 100 attempts fail the
resampler returns the original series and the original data unchanged. -/
theorem claim_C7_failed_attempts_revert {δ : Type} (conditions_fn : (ℕ → ℤ) → δ → Bool)
    (data_fn : (ℕ → ℤ) → δ) (x : ℕ → ℤ) (data : δ) (a : Attempt)
    (rest attempts : List Attempt)
    (hfail : conditions_fn (apply_move x a) (data_fn (apply_move x a)) = false)
    (hlen : attempts.length = 100)
    (hall : ∀ b ∈ attempts, conditions_fn (apply_move x b) (data_fn (apply_move x b)) = false) :
    undo_move (apply_move x a) x a = x ∧
    sample_x conditions_fn data_fn x data (a :: rest) =
      sample_x conditions_fn data_fn x data rest ∧
    sample_x conditions_fn data_fn x data attempts = (x, data) :=
  ⟨undo_apply x a, sample_x_fail_cons conditions_fn data_fn x data a rest hfail,
    sample_x_all_fail conditions_fn data_fn x data attempts hall⟩

/-- Witness for C7 at a concrete input: the B-sampler closures over a
population series that makes `S` negative, so every attempt fails; the budget
of 100 attempts is exhausted and the original series and data are returned. -/
theorem claim_C7_failed_attempts_revert_witness :
    (sample_B_conditions 1 (apply_move (fun _ => 1) (⟨∅, ∅, true⟩ : Attempt))
        (sample_B_data_fn 0 0 0 (fun _ => 0) (fun _ => -5)
          (apply_move (fun _ => 1) (⟨∅, ∅, true⟩ : Attempt))) = false) ∧
    (List.replicate 100 (⟨∅, ∅, true⟩ : Attempt)).length = 100 ∧
    sample_x (sample_B_conditions 1) (sample_B_data_fn 0 0 0 (fun _ => 0) (fun _ => -5))
        (fun _ => 1) (sample_B_data_fn 0 0 0 (fun _ => 0) (fun _ => -5) (fun _ => 1))
        (List.replicate 100 (⟨∅, ∅, true⟩ : Attempt)) =
      ((fun _ => 1), sample_B_data_fn 0 0 0 (fun _ => 0) (fun _ => -5) (fun _ => 1)) := by
  have hfail : ∀ b ∈ List.replicate 100 (⟨∅, ∅, true⟩ : Attempt),
      sample_B_conditions 1 (apply_move (fun _ => 1) b)
        (sample_B_data_fn 0 0 0 (fun _ => 0) (fun _ => -5) (apply_move (fun _ => 1) b)) = false := by
    intro b hb
    rw [List.eq_of_mem_replicate hb]
    decide
  refine ⟨hfail _ (List.mem_replicate.mpr (by norm_num)), by simp, ?_⟩
  exact (claim_C7_failed_attempts_revert (sample_B_conditions 1)
    (sample_B_data_fn 0 0 0 (fun _ => 0) (fun _ => -5)) (fun _ => 1)
    (sample_B_data_fn 0 0 0 (fun _ => 0) (fun _ => -5) (fun _ => 1)) ⟨∅, ∅, true⟩ []
    (List.replicate 100 ⟨∅, ∅, true⟩) (hfail _ (List.mem_replicate.mpr (by norm_num)))
    (by simp) hfail).2.2

/-- Claim C1 (amended): a single-site resampling step on `B`, `C` or `D_mild`
conserves the sum of the series unless it accepts a proposal produced by the
proportional-swap branch: for any oracle draws satisfying the code's
selection constraints (with no restriction on the per-attempt branch coin),
either the sum after the step equals the sum before — in particular whenever
the step is rejected or held, whatever branches its failed attempts took, and
whenever the accepted proposal is a unit swap — or the step accepted a
feasible proportional-swap proposal, which need not conserve the sum (see
the counterexample). -/
theorem claim_C1_mass_conserved_unless_proportional (T : ℕ) (st : SEIRState)
    (e0 i_mild0 i_wild0 : ℤ) (params : Fin 7 → ℝ) (t_ctrl : ℕ) (epsilon uB uC uD : ℝ)
    (attemptsB attemptsC attemptsD : List Attempt)
    (hvB : ∀ a ∈ attemptsB, validAttempt T st.B a)
    (hvC : ∀ a ∈ attemptsC, validAttempt T st.C a)
    (hvD : ∀ a ∈ attemptsD, validAttempt T st.D_mild a) :
    ((∑ t ∈ Finset.range T,
        (trainStepB T st e0 i_mild0 i_wild0 params t_ctrl epsilon uB attemptsB).B t =
      ∑ t ∈ Finset.range T, st.B t) ∨
      ∃ a ∈ attemptsB, a.one_off = false ∧
        (trainStepB T st e0 i_mild0 i_wild0 params t_ctrl epsilon uB attemptsB).B =
          apply_move st.B a ∧
        sample_B_conditions T (apply_move st.B a)
          (sample_B_data_fn e0 i_mild0 i_wild0 st.C st.N (apply_move st.B a)) = true) ∧
    ((∑ t ∈ Finset.range T,
        (trainStepC T st e0 i_mild0 i_wild0 params t_ctrl epsilon uC attemptsC).C t =
      ∑ t ∈ Finset.range T, st.C t) ∨
      ∃ a ∈ attemptsC, a.one_off = false ∧
        (trainStepC T st e0 i_mild0 i_wild0 params t_ctrl epsilon uC attemptsC).C =
          apply_move st.C a ∧
        sample_C_conditions T (apply_move st.C a)
          (sample_C_data_fn T e0 i_mild0 i_wild0 st.B st.D_mild st.D_wild st.N params t_ctrl
            (apply_move st.C a)) = true) ∧
    ((∑ t ∈ Finset.range T,
        (trainStepD_mild T st e0 i_mild0 i_wild0 params t_ctrl epsilon uD attemptsD).D_mild t =
      ∑ t ∈ Finset.range T, st.D_mild t) ∨
      ∃ a ∈ attemptsD, a.one_off = false ∧
        (trainStepD_mild T st e0 i_mild0 i_wild0 params t_ctrl epsilon uD attemptsD).D_mild =
          apply_move st.D_mild a ∧
        sample_D_mild_conditions T (apply_move st.D_mild a)
          (sample_D_mild_data_fn i_mild0 st.C params (apply_move st.D_mild a)) = true) := by
  refine ⟨?_, ?_, ?_⟩
  · rcases sample_B_spec T st.B st.S st.E st.I_mild st.I_wild st.C st.P st.N
        e0 i_mild0 i_wild0 params t_ctrl epsilon uB attemptsB with ⟨h1, _⟩ | ⟨a, ha, h1, _, h3⟩
    · left
      show ∑ t ∈ Finset.range T, (sample_B T st.B st.S st.E st.I_mild st.I_wild st.C st.P st.N
        e0 i_mild0 i_wild0 params t_ctrl epsilon uB attemptsB).1 t = _
      rw [h1]
    · by_cases hb : a.one_off = true
      · left
        show ∑ t ∈ Finset.range T, (sample_B T st.B st.S st.E st.I_mild st.I_wild st.C st.P
          st.N e0 i_mild0 i_wild0 params t_ctrl epsilon uB attemptsB).1 t = _
        rw [h1]
        exact apply_move_sum T st.B a ((hvB a ha).1.trans (Finset.filter_subset _ _))
          (hvB a ha).2.2.1 (hvB a ha).2.2.2 hb
      · right
        exact ⟨a, ha, Bool.not_eq_true _ ▸ hb, h1, h3⟩
  · rcases sample_C_spec T st.C st.E st.I_mild st.I_wild st.D_mild st.D_wild st.B st.N st.P
        e0 i_mild0 i_wild0 params t_ctrl epsilon uC attemptsC with ⟨h1, _⟩ | ⟨a, ha, h1, _, h3⟩
    · left
      show ∑ t ∈ Finset.range T, (sample_C T st.C st.E st.I_mild st.I_wild st.D_mild st.D_wild
        st.B st.N st.P e0 i_mild0 i_wild0 params t_ctrl epsilon uC attemptsC).1 t = _
      rw [h1]
    · by_cases hb : a.one_off = true
      · left
        show ∑ t ∈ Finset.range T, (sample_C T st.C st.E st.I_mild st.I_wild st.D_mild
          st.D_wild st.B st.N st.P e0 i_mild0 i_wild0 params t_ctrl epsilon uC attemptsC).1
          t = _
        rw [h1]
        exact apply_move_sum T st.C a ((hvC a ha).1.trans (Finset.filter_subset _ _))
          (hvC a ha).2.2.1 (hvC a ha).2.2.2 hb
      · right
        exact ⟨a, ha, Bool.not_eq_true _ ▸ hb, h1, h3⟩
  · rcases sample_D_mild_spec T st.D_mild st.I_mild st.I_wild st.C st.N
        e0 i_mild0 i_wild0 params t_ctrl epsilon uD attemptsD with ⟨h1, _⟩ | ⟨a, ha, h1, _, h3⟩
    · left
      show ∑ t ∈ Finset.range T, (sample_D_mild T st.D_mild st.I_mild st.I_wild st.C st.N
        e0 i_mild0 i_wild0 params t_ctrl epsilon uD attemptsD).1 t = _
      rw [h1]
    · by_cases hb : a.one_off = true
      · left
        show ∑ t ∈ Finset.range T, (sample_D_mild T st.D_mild st.I_mild st.I_wild st.C st.N
          e0 i_mild0 i_wild0 params t_ctrl epsilon uD attemptsD).1 t = _
        rw [h1]
        exact apply_move_sum T st.D_mild a ((hvD a ha).1.trans (Finset.filter_subset _ _))
          (hvD a ha).2.2.1 (hvD a ha).2.2.2 hb
      · right
        exact ⟨a, ha, Bool.not_eq_true _ ▸ hb, h1, h3⟩

/-- Claim C1 (counterexample): a proportional-swap proposal accepted by the
B-sampler changes the total of the series.  With `B = [160, 79]` (so both
sites are nonzero and the code draws `min(15, 2) = 2` sources), sources and
destinations `{0, 1}` and the proportional branch, the move subtracts
`160//80 = 2, 79//80 = 0` and adds `160//79 = 2, 79//79 = 1`: the step
returns a series of total `240 ≠ 239`. -/
theorem claim_C1_proportional_swap_changes_mass :
    validAttempt 2 exB1 exA1 ∧ exA1.one_off = false ∧
    (∑ t ∈ Finset.range 2, exB1 t) = 239 ∧
    (∑ t ∈ Finset.range 2,
        (sample_B 2 exB1 exS1 exE1 (fun _ => 0) (fun _ => 0) (fun _ => 0) (fun _ => 0)
          (fun _ => 1000) 0 0 0 (fun _ => 1) 2 (1e-16) (1/2) [exA1]).1 t) = 240 := by
  have hpass : sample_B_conditions 2 (apply_move exB1 exA1)
      (sample_B_data_fn 0 0 0 (fun _ => 0) (fun _ => 1000) (apply_move exB1 exA1)) = true := by
    decide
  have hcand : sample_x (sample_B_conditions 2)
      (sample_B_data_fn 0 0 0 (fun _ => 0) (fun _ => 1000)) exB1
      (⟨exS1, exE1⟩ : BData) [exA1] =
      (apply_move exB1 exA1,
        sample_B_data_fn 0 0 0 (fun _ => 0) (fun _ => 1000) (apply_move exB1 exA1)) :=
    sample_x_pass_cons _ _ _ _ _ _ hpass
  have hfn : sample_B_fn 2 (fun _ => 0) (1e-16) (apply_move exB1 exA1)
      (sample_B_data_fn 0 0 0 (fun _ => 0) (fun _ => 1000) (apply_move exB1 exA1)) =
      sample_B_fn 2 (fun _ => 0) (1e-16) exB1 (⟨exS1, exE1⟩ : BData) := by
    unfold sample_B_fn
    rw [Finset.sum_range_succ, Finset.sum_range_succ, Finset.sum_range_zero,
      Finset.sum_range_succ, Finset.sum_range_succ, Finset.sum_range_zero]
    have h1 : apply_move exB1 exA1 0 = 160 := by decide
    have h2 : apply_move exB1 exA1 1 = 80 := by decide
    have h3 : exB1 0 = 160 := by decide
    have h4 : exB1 1 = 79 := by decide
    rw [h1, h2, h3, h4]
    rw [binomPMF_zero_p _ 160 (by norm_num), binomPMF_zero_p _ 80 (by norm_num),
      binomPMF_zero_p _ 160 (by norm_num), binomPMF_zero_p _ 79 (by norm_num)]
  have hres : (sample_B 2 exB1 exS1 exE1 (fun _ => 0) (fun _ => 0) (fun _ => 0) (fun _ => 0)
      (fun _ => 1000) 0 0 0 (fun _ => 1) 2 (1e-16) (1/2) [exA1]) =
      (apply_move exB1 exA1,
        sample_B_data_fn 0 0 0 (fun _ => 0) (fun _ => 1000) (apply_move exB1 exA1),
        sample_B_fn 2 (fun _ => 0) (1e-16) (apply_move exB1 exA1)
          (sample_B_data_fn 0 0 0 (fun _ => 0) (fun _ => 1000) (apply_move exB1 exA1)),
        sample_B_fn 2 (fun _ => 0) (1e-16) exB1 (⟨exS1, exE1⟩ : BData)) := by
    apply mh_accepts exB1 (⟨exS1, exE1⟩ : BData) (sample_B_fn 2 (fun _ => 0) (1e-16))
      (fun x data cf r =>
        sample_x cf (sample_B_data_fn 0 0 0 (fun _ => 0) (fun _ => 1000)) x data r)
      (sample_B_conditions 2) (1/2) [exA1]
    · exact hcand
    · rw [hfn, sub_self, min_self]
      exact Real.log_nonpos (by norm_num) (by norm_num)
  rw [hres]
  refine ⟨?_, rfl, by decide, by decide⟩
  unfold validAttempt
  decide

/-- Witness for the amended C1 at a concrete input: on the constant-one
state with the single-attempt oracle `[⟨{0}, {0}, true⟩]` the selection
constraints hold non-trivially (one available source site, one destination),
and the B-step either keeps the total or accepted a proportional proposal. -/
theorem claim_C1_mass_conserved_unless_proportional_witness :
    (∀ a ∈ [(⟨{0}, {0}, true⟩ : Attempt)], validAttempt 1 (fun _ => (1:ℤ)) a) ∧
    ((∑ t ∈ Finset.range 1,
        (trainStepB 1 ⟨fun _ => 1, fun _ => 0, fun _ => 0, fun _ => 0, fun _ => 1, fun _ => 1,
          fun _ => 1, fun _ => 0, fun _ => 0, fun _ => 1⟩ 0 0 0 (fun _ => 1) 0 (1e-16)
          (1/2) [⟨{0}, {0}, true⟩]).B t =
      ∑ t ∈ Finset.range 1, (1:ℤ)) ∨
      ∃ a ∈ [(⟨{0}, {0}, true⟩ : Attempt)], a.one_off = false ∧
        (trainStepB 1 ⟨fun _ => 1, fun _ => 0, fun _ => 0, fun _ => 0, fun _ => 1, fun _ => 1,
          fun _ => 1, fun _ => 0, fun _ => 0, fun _ => 1⟩ 0 0 0 (fun _ => 1) 0 (1e-16)
          (1/2) [⟨{0}, {0}, true⟩]).B = apply_move (fun _ => (1:ℤ)) a ∧
        sample_B_conditions 1 (apply_move (fun _ => (1:ℤ)) a)
          (sample_B_data_fn 0 0 0 (fun _ => (1:ℤ)) (fun _ => (1:ℤ))
            (apply_move (fun _ => (1:ℤ)) a)) = true) := by
  have hv : ∀ a ∈ [(⟨{0}, {0}, true⟩ : Attempt)], validAttempt 1 (fun _ => (1:ℤ)) a := by
    intro a ha
    rw [List.mem_singleton] at ha
    subst ha
    unfold validAttempt
    decide
  exact ⟨hv, (claim_C1_mass_conserved_unless_proportional 1
    ⟨fun _ => 1, fun _ => 0, fun _ => 0, fun _ => 0, fun _ => 1, fun _ => 1,
      fun _ => 1, fun _ => 0, fun _ => 0, fun _ => 1⟩ 0 0 0 (fun _ => 1) 0 (1e-16)
    (1/2) (1/2) (1/2)
    [⟨{0}, {0}, true⟩] [⟨{0}, {0}, true⟩] [⟨{0}, {0}, true⟩] hv hv hv).1⟩


theorem sample_params_eq (T : ℕ) (params : Fin 7 → ℝ)
    (S E I_mild I_wild B C D_mild D_wild : ℕ → ℤ) (P : ℕ → ℝ) (N : ℕ → ℤ)
    (e0 i_mild0 i_wild0 : ℤ) (priors : Fin 7 → ℝ × ℝ) (rand_walk_stds : Fin 7 → ℝ)
    (t_ctrl : ℕ) (epsilon : ℝ) (bounds : Fin 7 → ℝ × ℝ) (u : ℝ) (draws : List (Fin 7 → ℝ))
    (x1 : Fin 7 → ℝ) (d1 : SPData) (lp1 lp2 : ℝ)
    (h : metropolis_hastings params (⟨S, E, I_mild, I_wild, P, N⟩ : SPData)
      (sp_fn T B C D_mild D_wild priors epsilon)
      (fun x d cf r =>
        sp_proposal_loop T B C D_mild D_wild e0 i_mild0 i_wild0 t_ctrl (params 6) x d cf r)
      (sp_conditions T bounds) [(u, draws)] = (x1, d1, lp1, lp2)) :
    sample_params T params S E I_mild I_wild B C D_mild D_wild P N e0 i_mild0 i_wild0 priors
      rand_walk_stds t_ctrl epsilon bounds u draws =
    ⟨x1, d1.S, d1.E, d1.I_mild, d1.I_wild, d1.P, d1.N,
      fun t => transmission_rate (x1 0) (x1 1) t_ctrl T t /
        (x1 2 * x1 4 + (1 - x1 2) * x1 5) * (S t : ℝ) / (N t : ℝ), lp1, lp2⟩ := by
  simp only [sample_params]
  rw [h]

theorem sample_params_spec (T : ℕ) (params : Fin 7 → ℝ)
    (S E I_mild I_wild B C D_mild D_wild : ℕ → ℤ) (P : ℕ → ℝ) (N : ℕ → ℤ)
    (e0 i_mild0 i_wild0 : ℤ) (priors : Fin 7 → ℝ × ℝ) (rand_walk_stds : Fin 7 → ℝ)
    (t_ctrl : ℕ) (epsilon : ℝ) (bounds : Fin 7 → ℝ × ℝ) (u : ℝ) (draws : List (Fin 7 → ℝ)) :
    ((sample_params T params S E I_mild I_wild B C D_mild D_wild P N e0 i_mild0 i_wild0
        priors rand_walk_stds t_ctrl epsilon bounds u draws).params = params ∧
      (sample_params T params S E I_mild I_wild B C D_mild D_wild P N e0 i_mild0 i_wild0
        priors rand_walk_stds t_ctrl epsilon bounds u draws).S = S ∧
      (sample_params T params S E I_mild I_wild B C D_mild D_wild P N e0 i_mild0 i_wild0
        priors rand_walk_stds t_ctrl epsilon bounds u draws).E = E ∧
      (sample_params T params S E I_mild I_wild B C D_mild D_wild P N e0 i_mild0 i_wild0
        priors rand_walk_stds t_ctrl epsilon bounds u draws).I_mild = I_mild ∧
      (sample_params T params S E I_mild I_wild B C D_mild D_wild P N e0 i_mild0 i_wild0
        priors rand_walk_stds t_ctrl epsilon bounds u draws).I_wild = I_wild ∧
      (sample_params T params S E I_mild I_wild B C D_mild D_wild P N e0 i_mild0 i_wild0
        priors rand_walk_stds t_ctrl epsilon bounds u draws).P = P ∧
      (sample_params T params S E I_mild I_wild B C D_mild D_wild P N e0 i_mild0 i_wild0
        priors rand_walk_stds t_ctrl epsilon bounds u draws).N = N) ∨
    ∃ x_new ∈ draws,
      sp_conditions T bounds x_new (sp_candidate_data T B C D_mild D_wild N e0 i_mild0 i_wild0
        t_ctrl (params 6) x_new) = true ∧
      (sample_params T params S E I_mild I_wild B C D_mild D_wild P N e0 i_mild0 i_wild0
        priors rand_walk_stds t_ctrl epsilon bounds u draws).params = x_new ∧
      (sample_params T params S E I_mild I_wild B C D_mild D_wild P N e0 i_mild0 i_wild0
        priors rand_walk_stds t_ctrl epsilon bounds u draws).S =
        (sp_candidate_data T B C D_mild D_wild N e0 i_mild0 i_wild0 t_ctrl (params 6) x_new).S ∧
      (sample_params T params S E I_mild I_wild B C D_mild D_wild P N e0 i_mild0 i_wild0
        priors rand_walk_stds t_ctrl epsilon bounds u draws).E =
        (sp_candidate_data T B C D_mild D_wild N e0 i_mild0 i_wild0 t_ctrl (params 6) x_new).E ∧
      (sample_params T params S E I_mild I_wild B C D_mild D_wild P N e0 i_mild0 i_wild0
        priors rand_walk_stds t_ctrl epsilon bounds u draws).I_mild =
        (sp_candidate_data T B C D_mild D_wild N e0 i_mild0 i_wild0 t_ctrl
          (params 6) x_new).I_mild ∧
      (sample_params T params S E I_mild I_wild B C D_mild D_wild P N e0 i_mild0 i_wild0
        priors rand_walk_stds t_ctrl epsilon bounds u draws).I_wild =
        (sp_candidate_data T B C D_mild D_wild N e0 i_mild0 i_wild0 t_ctrl
          (params 6) x_new).I_wild ∧
      (sample_params T params S E I_mild I_wild B C D_mild D_wild P N e0 i_mild0 i_wild0
        priors rand_walk_stds t_ctrl epsilon bounds u draws).P =
        (sp_candidate_data T B C D_mild D_wild N e0 i_mild0 i_wild0 t_ctrl (params 6) x_new).P ∧
      (sample_params T params S E I_mild I_wild B C D_mild D_wild P N e0 i_mild0 i_wild0
        priors rand_walk_stds t_ctrl epsilon bounds u draws).N =
        (sp_candidate_data T B C D_mild D_wild N e0 i_mild0 i_wild0 t_ctrl (params 6) x_new).N := by
  have hmh := mh_single_step params (⟨S, E, I_mild, I_wild, P, N⟩ : SPData)
    (sp_fn T B C D_mild D_wild priors epsilon)
    (fun x d cf r =>
      sp_proposal_loop T B C D_mild D_wild e0 i_mild0 i_wild0 t_ctrl (params 6) x d cf r)
    (sp_conditions T bounds) u draws
  have hloop := sp_loop_cases T B C D_mild D_wild e0 i_mild0 i_wild0 t_ctrl (params 6) params
    (⟨S, E, I_mild, I_wild, P, N⟩ : SPData) (sp_conditions T bounds) draws
  rcases hloop with hc | ⟨x_new, hx, hc, hcond⟩
  · left
    rw [hc] at hmh
    split at hmh <;>
      rw [sample_params_eq T params S E I_mild I_wild B C D_mild D_wild P N e0 i_mild0 i_wild0
        priors rand_walk_stds t_ctrl epsilon bounds u draws _ _ _ _ hmh] <;>
      exact ⟨rfl, rfl, rfl, rfl, rfl, rfl, rfl⟩
  · rw [hc] at hmh
    split at hmh
    · right
      refine ⟨x_new, hx, hcond, ?_⟩
      rw [sample_params_eq T params S E I_mild I_wild B C D_mild D_wild P N e0 i_mild0 i_wild0
        priors rand_walk_stds t_ctrl epsilon bounds u draws _ _ _ _ hmh]
      exact ⟨rfl, rfl, rfl, rfl, rfl, rfl, rfl⟩
    · left
      rw [sample_params_eq T params S E I_mild I_wild B C D_mild D_wild P N e0 i_mild0 i_wild0
        priors rand_walk_stds t_ctrl epsilon bounds u draws _ _ _ _ hmh]
      exact ⟨rfl, rfl, rfl, rfl, rfl, rfl, rfl⟩

/-- Claim C3 (amended): the `R0(t)` vector returned by the parameter sampler
equals `transmission_rate(t) / (delta*gamma_mild + (1-delta)*gamma_wild) *
S(t)/N(t)` where the rate and the parameters `delta, gamma_mild, gamma_wild`
come from the returned parameter vector, but `S` and `N` are the *pre-step
input* arrays (the code computes `R0t` before unpacking the updated data), not
the recomputed arrays returned alongside; on an accepted k-rescaling proposal
the returned `S`, `N` differ from the ones used in `R0t`. -/
theorem claim_C3_R0t_uses_prestep_S_and_N (T : ℕ) (params : Fin 7 → ℝ)
    (S E I_mild I_wild B C D_mild D_wild : ℕ → ℤ) (P : ℕ → ℝ) (N : ℕ → ℤ)
    (e0 i_mild0 i_wild0 : ℤ) (priors : Fin 7 → ℝ × ℝ) (rand_walk_stds : Fin 7 → ℝ)
    (t_ctrl : ℕ) (epsilon : ℝ) (bounds : Fin 7 → ℝ × ℝ) (u : ℝ) (draws : List (Fin 7 → ℝ))
    (t : ℕ) :
    (sample_params T params S E I_mild I_wild B C D_mild D_wild P N e0 i_mild0 i_wild0
        priors rand_walk_stds t_ctrl epsilon bounds u draws).R0t t =
      transmission_rate
          ((sample_params T params S E I_mild I_wild B C D_mild D_wild P N e0 i_mild0 i_wild0
            priors rand_walk_stds t_ctrl epsilon bounds u draws).params 0)
          ((sample_params T params S E I_mild I_wild B C D_mild D_wild P N e0 i_mild0 i_wild0
            priors rand_walk_stds t_ctrl epsilon bounds u draws).params 1) t_ctrl T t /
        ((sample_params T params S E I_mild I_wild B C D_mild D_wild P N e0 i_mild0 i_wild0
            priors rand_walk_stds t_ctrl epsilon bounds u draws).params 2 *
          (sample_params T params S E I_mild I_wild B C D_mild D_wild P N e0 i_mild0 i_wild0
            priors rand_walk_stds t_ctrl epsilon bounds u draws).params 4 +
          (1 - (sample_params T params S E I_mild I_wild B C D_mild D_wild P N e0 i_mild0
            i_wild0 priors rand_walk_stds t_ctrl epsilon bounds u draws).params 2) *
          (sample_params T params S E I_mild I_wild B C D_mild D_wild P N e0 i_mild0 i_wild0
            priors rand_walk_stds t_ctrl epsilon bounds u draws).params 5) *
        (S t : ℝ) / (N t : ℝ) ∧
    (((sample_params T params S E I_mild I_wild B C D_mild D_wild P N e0 i_mild0 i_wild0
          priors rand_walk_stds t_ctrl epsilon bounds u draws).S = S ∧
        (sample_params T params S E I_mild I_wild B C D_mild D_wild P N e0 i_mild0 i_wild0
          priors rand_walk_stds t_ctrl epsilon bounds u draws).N = N) ∨
      ∃ x_new ∈ draws,
        (sample_params T params S E I_mild I_wild B C D_mild D_wild P N e0 i_mild0 i_wild0
          priors rand_walk_stds t_ctrl epsilon bounds u draws).params = x_new ∧
        (sample_params T params S E I_mild I_wild B C D_mild D_wild P N e0 i_mild0 i_wild0
          priors rand_walk_stds t_ctrl epsilon bounds u draws).N =
          (fun τ => max 1 (round_int ((N τ : ℝ) * params 6 / x_new 6))) ∧
        (sample_params T params S E I_mild I_wild B C D_mild D_wild P N e0 i_mild0 i_wild0
          priors rand_walk_stds t_ctrl epsilon bounds u draws).S =
          compute_S e0 i_mild0 i_wild0 B
            (sample_params T params S E I_mild I_wild B C D_mild D_wild P N e0 i_mild0 i_wild0
              priors rand_walk_stds t_ctrl epsilon bounds u draws).N) := by
  constructor
  · rfl
  · rcases sample_params_spec T params S E I_mild I_wild B C D_mild D_wild P N e0 i_mild0
        i_wild0 priors rand_walk_stds t_ctrl epsilon bounds u draws with
      ⟨_, hS, _, _, _, _, hN⟩ | ⟨x_new, hx, _, hparams, hS, _, _, _, _, hN⟩
    · left; exact ⟨hS, hN⟩
    · right
      refine ⟨x_new, hx, hparams, hN.trans rfl, ?_⟩
      rw [hN]
      exact hS.trans rfl

theorem binomPMF_p_zero_k_zero (n : ℤ) (hn : 0 ≤ n) : binomPMF n 0 0 = 1 := by
  unfold binomPMF
  rw [if_pos ⟨le_refl 0, hn⟩]
  norm_num

theorem compute_P_zero (trans_rate : ℕ → ℝ) (I_mild I_wild N : ℕ → ℤ) (t : ℕ)
    (hIm : I_mild t = 0) (hIw : I_wild t = 0) : compute_P trans_rate I_mild I_wild N t = 0 := by
  unfold compute_P
  rw [hIm, hIw]
  norm_num

theorem round_int_zero : round_int 0 = 0 := by
  unfold round_int
  norm_num [Int.floor_eq_iff]

theorem round_int_ten : round_int 10 = 10 := by
  unfold round_int
  norm_num [Int.floor_eq_iff]

theorem sp_loop_pass (T : ℕ) (B C D_mild D_wild : ℕ → ℤ) (e0 i_mild0 i_wild0 : ℤ)
    (t_ctrl : ℕ) (old_k : ℝ) (x : Fin 7 → ℝ) (data : SPData)
    (conditions_fn : (Fin 7 → ℝ) → SPData → Bool) (a : Fin 7 → ℝ) (rest : List (Fin 7 → ℝ))
    (h : conditions_fn a
      (sp_candidate_data T B C D_mild D_wild data.N e0 i_mild0 i_wild0 t_ctrl old_k a) = true) :
    sp_proposal_loop T B C D_mild D_wild e0 i_mild0 i_wild0 t_ctrl old_k x data conditions_fn
      (a :: rest) =
    (a, sp_candidate_data T B C D_mild D_wild data.N e0 i_mild0 i_wild0 t_ctrl old_k a) := by
  show (if conditions_fn a
      (sp_candidate_data T B C D_mild D_wild data.N e0 i_mild0 i_wild0 t_ctrl old_k a) then _
    else _) = _
  rw [h]
  simp only [if_true]

/-- Claim C3 (counterexample): with parameters `(1, 1, 1/2, 1, 1/2, 1/2, 1)`,
a random-walk draw changing only `k` from `1` to `1/2` (so `N` is rescaled
from `5` to `10` and the recomputed `S(1)` becomes `9` instead of `4`), a
uniform draw `1/2`, and a state whose infectious counts are zero (which makes
the log-density difference exactly `0`, so the candidate is accepted), the
returned `R0(t)` at `t = 1` is `2 * 4/5 = 8/5`, computed from the *pre-step*
`S(1)/N(1) = 4/5`, while the claimed formula with the returned (recomputed)
`S(1)/N(1) = 9/10` gives `2 * 9/10 = 9/5`. -/
theorem claim_C3_R0t_counterexample :
    (sample_params 2 c3params c3S c3E (fun _ => 0) (fun _ => 0) c3B (fun _ => 0) (fun _ => 0)
        (fun _ => 0) (fun _ => 0) (fun _ => 5) 1 0 0 (fun _ => (2, 10)) (fun _ => 1) 2 (1e-16)
        (fun _ => (0, 100)) (1/2) [c3draw]).R0t 1 = 8/5 ∧
    transmission_rate
        ((sample_params 2 c3params c3S c3E (fun _ => 0) (fun _ => 0) c3B (fun _ => 0) (fun _ => 0)
          (fun _ => 0) (fun _ => 0) (fun _ => 5) 1 0 0 (fun _ => (2, 10)) (fun _ => 1) 2 (1e-16)
          (fun _ => (0, 100)) (1/2) [c3draw]).params 0)
        ((sample_params 2 c3params c3S c3E (fun _ => 0) (fun _ => 0) c3B (fun _ => 0) (fun _ => 0)
          (fun _ => 0) (fun _ => 0) (fun _ => 5) 1 0 0 (fun _ => (2, 10)) (fun _ => 1) 2 (1e-16)
          (fun _ => (0, 100)) (1/2) [c3draw]).params 1) 2 2 1 /
      ((sample_params 2 c3params c3S c3E (fun _ => 0) (fun _ => 0) c3B (fun _ => 0) (fun _ => 0)
          (fun _ => 0) (fun _ => 0) (fun _ => 5) 1 0 0 (fun _ => (2, 10)) (fun _ => 1) 2 (1e-16)
          (fun _ => (0, 100)) (1/2) [c3draw]).params 2 *
        (sample_params 2 c3params c3S c3E (fun _ => 0) (fun _ => 0) c3B (fun _ => 0) (fun _ => 0)
          (fun _ => 0) (fun _ => 0) (fun _ => 5) 1 0 0 (fun _ => (2, 10)) (fun _ => 1) 2 (1e-16)
          (fun _ => (0, 100)) (1/2) [c3draw]).params 4 +
        (1 - (sample_params 2 c3params c3S c3E (fun _ => 0) (fun _ => 0) c3B (fun _ => 0)
          (fun _ => 0) (fun _ => 0) (fun _ => 0) (fun _ => 5) 1 0 0 (fun _ => (2, 10))
          (fun _ => 1) 2 (1e-16) (fun _ => (0, 100)) (1/2) [c3draw]).params 2) *
        (sample_params 2 c3params c3S c3E (fun _ => 0) (fun _ => 0) c3B (fun _ => 0) (fun _ => 0)
          (fun _ => 0) (fun _ => 0) (fun _ => 5) 1 0 0 (fun _ => (2, 10)) (fun _ => 1) 2 (1e-16)
          (fun _ => (0, 100)) (1/2) [c3draw]).params 5) *
      (((sample_params 2 c3params c3S c3E (fun _ => 0) (fun _ => 0) c3B (fun _ => 0) (fun _ => 0)
          (fun _ => 0) (fun _ => 0) (fun _ => 5) 1 0 0 (fun _ => (2, 10)) (fun _ => 1) 2 (1e-16)
          (fun _ => (0, 100)) (1/2) [c3draw]).S 1 : ℤ) : ℝ) /
      (((sample_params 2 c3params c3S c3E (fun _ => 0) (fun _ => 0) c3B (fun _ => 0) (fun _ => 0)
          (fun _ => 0) (fun _ => 0) (fun _ => 5) 1 0 0 (fun _ => (2, 10)) (fun _ => 1) 2 (1e-16)
          (fun _ => (0, 100)) (1/2) [c3draw]).N 1 : ℤ) : ℝ) = 9/5 ∧
    (8/5 : ℝ) ≠ 9/5 := by
  have hdr0 : c3draw 0 = 1 := rfl
  have hdr1 : c3draw 1 = 1 := rfl
  have hdr2 : c3draw 2 = 1/2 := rfl
  have hdr3 : c3draw 3 = 1 := rfl
  have hdr4 : c3draw 4 = 1/2 := rfl
  have hdr5 : c3draw 5 = 1/2 := rfl
  have hdr6 : c3draw 6 = 1/2 := rfl
  have hpp0 : c3params 0 = 1 := rfl
  have hpp3 : c3params 3 = 1 := rfl
  have hpp4 : c3params 4 = 1/2 := rfl
  have hpp5 : c3params 5 = 1/2 := rfl
  have hpp6 : c3params 6 = 1 := rfl
  have hcandN : (sp_candidate_data 2 c3B (fun _ => 0) (fun _ => 0) (fun _ => 0) (fun _ => 5)
      1 0 0 2 (c3params 6) c3draw).N = fun _ => 10 := by
    funext τ
    show max 1 (round_int (((5:ℤ) : ℝ) * c3params 6 / c3draw 6)) = 10
    rw [hpp6, hdr6]
    have h3 : ((5:ℤ) : ℝ) * 1 / (1/2) = 10 := by norm_num
    rw [h3, round_int_ten]
    decide
  have hcandS : (sp_candidate_data 2 c3B (fun _ => 0) (fun _ => 0) (fun _ => 0) (fun _ => 5)
      1 0 0 2 (c3params 6) c3draw).S = compute_S 1 0 0 c3B
      (sp_candidate_data 2 c3B (fun _ => 0) (fun _ => 0) (fun _ => 0) (fun _ => 5)
        1 0 0 2 (c3params 6) c3draw).N := rfl
  have hcandS0 : (sp_candidate_data 2 c3B (fun _ => 0) (fun _ => 0) (fun _ => 0) (fun _ => 5)
      1 0 0 2 (c3params 6) c3draw).S 0 = 10 := by
    rw [hcandS, hcandN]
    simp [compute_S]
  have hcandS1 : (sp_candidate_data 2 c3B (fun _ => 0) (fun _ => 0) (fun _ => 0) (fun _ => 5)
      1 0 0 2 (c3params 6) c3draw).S 1 = 9 := by
    rw [hcandS, hcandN]
    simp [compute_S, c3B, Finset.sum_range_one]
  have hcandE : (sp_candidate_data 2 c3B (fun _ => 0) (fun _ => 0) (fun _ => 0) (fun _ => 5)
      1 0 0 2 (c3params 6) c3draw).E = compute_E 1 c3B (fun _ => 0) := rfl
  have hcandE0 : (sp_candidate_data 2 c3B (fun _ => 0) (fun _ => 0) (fun _ => 0) (fun _ => 5)
      1 0 0 2 (c3params 6) c3draw).E 0 = 1 := by
    rw [hcandE]
    simp [compute_E]
  have hcandE1 : (sp_candidate_data 2 c3B (fun _ => 0) (fun _ => 0) (fun _ => 0) (fun _ => 5)
      1 0 0 2 (c3params 6) c3draw).E 1 = 2 := by
    rw [hcandE]
    simp [compute_E, c3B, Finset.sum_range_one]
  have hcandIm : (sp_candidate_data 2 c3B (fun _ => 0) (fun _ => 0) (fun _ => 0) (fun _ => 5)
      1 0 0 2 (c3params 6) c3draw).I_mild = fun _ => 0 := by
    funext t
    show compute_I 0 (fun τ => round_int (((0:ℤ) : ℝ) * c3draw 2)) (fun _ => 0) t = 0
    simp [compute_I, round_int_zero]
  have hcandIw : (sp_candidate_data 2 c3B (fun _ => 0) (fun _ => 0) (fun _ => 0) (fun _ => 5)
      1 0 0 2 (c3params 6) c3draw).I_wild = fun _ => 0 := by
    funext t
    show compute_I 0 (fun τ => (0:ℤ) - round_int (((0:ℤ) : ℝ) * c3draw 2)) (fun _ => 0) t = 0
    simp [compute_I, round_int_zero]
  have hImfun : ∀ t, compute_I 0 (fun τ => round_int (((0:ℤ) : ℝ) * c3draw 2))
      (fun _ => (0:ℤ)) t = 0 := by
    intro t
    simp [compute_I, round_int_zero]
  have hIwfun : ∀ t, compute_I 0 (fun τ => (0:ℤ) - round_int (((0:ℤ) : ℝ) * c3draw 2))
      (fun _ => (0:ℤ)) t = 0 := by
    intro t
    simp [compute_I, round_int_zero]
  have hcandP : (sp_candidate_data 2 c3B (fun _ => 0) (fun _ => 0) (fun _ => 0) (fun _ => 5)
      1 0 0 2 (c3params 6) c3draw).P = fun _ => 0 := by
    funext t
    show compute_P (transmission_rate (c3draw 0) (c3draw 1) 2 2)
      (compute_I 0 (fun τ => round_int (((0:ℤ) : ℝ) * c3draw 2)) (fun _ => 0))
      (compute_I 0 (fun τ => (0:ℤ) - round_int (((0:ℤ) : ℝ) * c3draw 2)) (fun _ => 0))
      (fun _ => max 1 (round_int (((5:ℤ) : ℝ) * c3params 6 / c3draw 6))) t = 0
    exact compute_P_zero _ _ _ _ t (hImfun t) (hIwfun t)
  have hcond : sp_conditions 2 (fun _ => (0, 100)) c3draw
      (sp_candidate_data 2 c3B (fun _ => 0) (fun _ => 0) (fun _ => 0) (fun _ => 5)
        1 0 0 2 (c3params 6) c3draw) = true := by
    simp only [sp_conditions, Bool.and_eq_true, decide_eq_true_eq]
    refine ⟨⟨?_, ⟨⟨⟨?_, ?_⟩, ?_⟩, ?_⟩⟩, ?_⟩
    · intro i
      fin_cases i <;> norm_num [c3draw]
    · intro t
      fin_cases t
      · rw [show ((⟨0, by omega⟩ : Fin 2) : ℕ) = 0 from rfl, hcandS0]
        norm_num
      · rw [show ((⟨1, by omega⟩ : Fin 2) : ℕ) = 1 from rfl, hcandS1]
        norm_num
    · intro t
      fin_cases t
      · rw [show ((⟨0, by omega⟩ : Fin 2) : ℕ) = 0 from rfl, hcandE0]
        norm_num
      · rw [show ((⟨1, by omega⟩ : Fin 2) : ℕ) = 1 from rfl, hcandE1]
        norm_num
    · intro t
      rw [hcandIm]
    · intro t
      rw [hcandIw]
    · intro i
      fin_cases i <;> norm_num [c3draw]
  have hg1 : gammaPDF 2 10 1 = 0 := by
    unfold gammaPDF
    rw [if_neg (by norm_num)]
  have hg2 : gammaPDF 2 10 (1/2) = 0 := by
    unfold gammaPDF
    rw [if_neg (by norm_num)]
  have hsum2 : ∀ f : ℕ → ℝ, ∑ t ∈ Finset.range 2, f t = f 0 + f 1 := fun f => by
    rw [Finset.sum_range_succ, Finset.sum_range_one]
  have hfneq : sp_fn 2 c3B (fun _ => 0) (fun _ => 0) (fun _ => 0) (fun _ => (2, 10)) (1e-16)
      c3draw (sp_candidate_data 2 c3B (fun _ => 0) (fun _ => 0) (fun _ => 0) (fun _ => 5)
        1 0 0 2 (c3params 6) c3draw) =
      sp_fn 2 c3B (fun _ => 0) (fun _ => 0) (fun _ => 0) (fun _ => (2, 10)) (1e-16) c3params
        (⟨c3S, c3E, fun _ => 0, fun _ => 0, fun _ => 0, fun _ => 5⟩ : SPData) := by
    simp only [sp_fn]
    simp only [hsum2, Fin.sum_univ_seven]
    simp only [hcandP, hcandIm, hcandIw, hcandS0, hcandS1, hcandE0, hcandE1]
    simp only [c3B, c3S, c3E, hdr0, hdr1, hdr2, hdr3, hdr4, hdr5, hdr6,
      hpp0, hpp3, hpp4, hpp5, hpp6]
    norm_num [binomPMF_zero_p 10 1 one_pos, binomPMF_zero_p 5 1 one_pos,
      binomPMF_p_zero_k_zero 9 (by norm_num), binomPMF_p_zero_k_zero 4 (by norm_num),
      hg1, hg2, c3params, c3draw]
  have hp : (fun (x : Fin 7 → ℝ) (d : SPData) (cf : (Fin 7 → ℝ) → SPData → Bool)
        (r : List (Fin 7 → ℝ)) =>
        sp_proposal_loop 2 c3B (fun _ => 0) (fun _ => 0) (fun _ => 0) 1 0 0 2 (c3params 6)
          x d cf r) c3params
      (⟨c3S, c3E, fun _ => 0, fun _ => 0, fun _ => 0, fun _ => 5⟩ : SPData)
      (sp_conditions 2 (fun _ => (0, 100))) [c3draw] =
      (c3draw, sp_candidate_data 2 c3B (fun _ => 0) (fun _ => 0) (fun _ => 0) (fun _ => 5)
        1 0 0 2 (c3params 6) c3draw) :=
    sp_loop_pass 2 c3B (fun _ => 0) (fun _ => 0) (fun _ => 0) 1 0 0 2 (c3params 6)
      c3params (⟨c3S, c3E, fun _ => 0, fun _ => 0, fun _ => 0, fun _ => 5⟩ : SPData)
      (sp_conditions 2 (fun _ => (0, 100))) c3draw [] hcond
  have hacc : Real.log (1/2) ≤ min 0
      (sp_fn 2 c3B (fun _ => 0) (fun _ => 0) (fun _ => 0) (fun _ => (2, 10)) (1e-16) c3draw
        (sp_candidate_data 2 c3B (fun _ => 0) (fun _ => 0) (fun _ => 0) (fun _ => 5)
          1 0 0 2 (c3params 6) c3draw) -
      sp_fn 2 c3B (fun _ => 0) (fun _ => 0) (fun _ => 0) (fun _ => (2, 10)) (1e-16) c3params
        (⟨c3S, c3E, fun _ => 0, fun _ => 0, fun _ => 0, fun _ => 5⟩ : SPData)) := by
    rw [hfneq, sub_self, min_self]
    exact Real.log_nonpos (by norm_num) (by norm_num)
  have hres := sample_params_eq 2 c3params c3S c3E (fun _ => 0) (fun _ => 0) c3B (fun _ => 0)
    (fun _ => 0) (fun _ => 0) (fun _ => 0) (fun _ => 5) 1 0 0 (fun _ => (2, 10)) (fun _ => 1)
    2 (1e-16) (fun _ => (0, 100)) (1/2) [c3draw] c3draw
    (sp_candidate_data 2 c3B (fun _ => 0) (fun _ => 0) (fun _ => 0) (fun _ => 5) 1 0 0 2
      (c3params 6) c3draw) _ _
    (mh_accepts c3params (⟨c3S, c3E, fun _ => 0, fun _ => 0, fun _ => 0, fun _ => 5⟩ : SPData)
      (sp_fn 2 c3B (fun _ => 0) (fun _ => 0) (fun _ => 0) (fun _ => (2, 10)) (1e-16))
      (fun x d cf r =>
        sp_proposal_loop 2 c3B (fun _ => 0) (fun _ => 0) (fun _ => 0) 1 0 0 2 (c3params 6)
          x d cf r)
      (sp_conditions 2 (fun _ => (0, 100))) (1/2) [c3draw] c3draw
      (sp_candidate_data 2 c3B (fun _ => 0) (fun _ => 0) (fun _ => 0) (fun _ => 5) 1 0 0 2
        (c3params 6) c3draw) hp hacc)
  have htr : transmission_rate 1 1 2 2 1 = 1 := by
    unfold transmission_rate
    rw [if_neg (by omega)]
  refine ⟨?_, ?_, by norm_num⟩
  · rw [hres]
    show transmission_rate (c3draw 0) (c3draw 1) 2 2 1 /
        (c3draw 2 * c3draw 4 + (1 - c3draw 2) * c3draw 5) * ((c3S 1 : ℤ) : ℝ) /
        (((5:ℤ) : ℝ)) = 8/5
    rw [hdr0, hdr1, hdr2, hdr4, hdr5, htr]
    norm_num [c3S]
  · rw [hres]
    show transmission_rate (c3draw 0) (c3draw 1) 2 2 1 /
        (c3draw 2 * c3draw 4 + (1 - c3draw 2) * c3draw 5) *
        (((sp_candidate_data 2 c3B (fun _ => 0) (fun _ => 0) (fun _ => 0) (fun _ => 5) 1 0 0 2
          (c3params 6) c3draw).S 1 : ℤ) : ℝ) /
        (((sp_candidate_data 2 c3B (fun _ => 0) (fun _ => 0) (fun _ => 0) (fun _ => 5) 1 0 0 2
          (c3params 6) c3draw).N 1 : ℤ) : ℝ) = 9/5
    rw [hdr0, hdr1, hdr2, hdr4, hdr5, htr, hcandS1, hcandN]
    norm_num

theorem compute_I_congr (i0 : ℤ) (C1 C2 D : ℕ → ℤ) (h : ∀ τ, C1 τ = C2 τ) (t : ℕ) :
    compute_I i0 C1 D t = compute_I i0 C2 D t := by
  unfold compute_I
  congr 1
  exact Finset.sum_congr rfl (fun τ _ => by rw [h τ])

theorem trainStepB_preserves (T : ℕ) (st : SEIRState) (e0 i_mild0 i_wild0 : ℤ)
    (params : Fin 7 → ℝ) (t_ctrl : ℕ) (epsilon u : ℝ) (attempts : List Attempt)
    (hinv : check_rep_inv T st e0 i_mild0 i_wild0 params t_ctrl)
    (hv : ∀ a ∈ attempts, validAttempt T st.B a) :
    check_rep_inv T (trainStepB T st e0 i_mild0 i_wild0 params t_ctrl epsilon u attempts)
      e0 i_mild0 i_wild0 params t_ctrl := by
  rcases sample_B_spec T st.B st.S st.E st.I_mild st.I_wild st.C st.P st.N e0 i_mild0 i_wild0
      params t_ctrl epsilon u attempts with ⟨h1, h2⟩ | ⟨a, ha, h1, h2, h3⟩
  · have hstep : trainStepB T st e0 i_mild0 i_wild0 params t_ctrl epsilon u attempts = st := by
      simp only [trainStepB]
      rw [h1, h2]
    rw [hstep]
    exact hinv
  · have hstep : trainStepB T st e0 i_mild0 i_wild0 params t_ctrl epsilon u attempts =
        ⟨compute_S e0 i_mild0 i_wild0 (apply_move st.B a) st.N,
          compute_E e0 (apply_move st.B a) st.C, st.I_mild, st.I_wild, apply_move st.B a,
          st.C, st.D_mild, st.D_wild, st.P, st.N⟩ := by
      simp only [trainStepB]
      rw [h1, h2]
      rfl
    rw [hstep]
    simp only [sample_B_conditions, sample_B_data_fn, Bool.and_eq_true, decide_eq_true_eq] at h3
    obtain ⟨hSc, hEc⟩ := h3
    obtain ⟨hIm, hIw, hS, hE, hImIw, hB, hC, hDm, hDw, hP, hSe, hEe, hIme, hIwe, hPe⟩ := hinv
    refine ⟨hIm, hIw, ?_, ?_, hImIw, ?_, hC, hDm, hDw, hP, ?_, ?_, hIme, hIwe, hPe⟩
    · intro t ht
      exact hSc ⟨t, ht⟩
    · intro t ht
      exact hEc ⟨t, ht⟩
    · intro t ht
      refine apply_move_nonneg st.B a t (hB t ht) (fun hi => ?_)
      exact (Finset.mem_filter.mp ((hv a ha).1 hi)).2
    · intro t ht
      rfl
    · intro t ht
      rfl

theorem trainStepC_preserves (T : ℕ) (st : SEIRState) (e0 i_mild0 i_wild0 : ℤ)
    (params : Fin 7 → ℝ) (t_ctrl : ℕ) (epsilon u : ℝ) (attempts : List Attempt)
    (hinv : check_rep_inv T st e0 i_mild0 i_wild0 params t_ctrl)
    (hv : ∀ a ∈ attempts, validAttempt T st.C a)
    (hN : ∀ t < T, 1 ≤ st.N t) (hbeta : 0 ≤ params 0) :
    check_rep_inv T (trainStepC T st e0 i_mild0 i_wild0 params t_ctrl epsilon u attempts)
      e0 i_mild0 i_wild0 params t_ctrl := by
  rcases sample_C_spec T st.C st.E st.I_mild st.I_wild st.D_mild st.D_wild st.B st.N st.P
      e0 i_mild0 i_wild0 params t_ctrl epsilon u attempts with ⟨h1, h2⟩ | ⟨a, ha, h1, h2, h3⟩
  · have hstep : trainStepC T st e0 i_mild0 i_wild0 params t_ctrl epsilon u attempts = st := by
      simp only [trainStepC]
      rw [h1, h2]
    rw [hstep]
    exact hinv
  · have hstep : trainStepC T st e0 i_mild0 i_wild0 params t_ctrl epsilon u attempts =
        ⟨st.S, compute_E e0 st.B (apply_move st.C a),
          compute_I i_mild0 (fun τ => round_int (params 2 * (apply_move st.C a τ : ℝ)))
            st.D_mild,
          compute_I i_wild0
            (fun τ => apply_move st.C a τ - round_int (params 2 * (apply_move st.C a τ : ℝ)))
            st.D_wild,
          st.B, apply_move st.C a, st.D_mild, st.D_wild,
          compute_P (transmission_rate (params 0) (params 1) t_ctrl T)
            (compute_I i_mild0 (fun τ => round_int (params 2 * (apply_move st.C a τ : ℝ)))
              st.D_mild)
            (compute_I i_wild0
              (fun τ => apply_move st.C a τ - round_int (params 2 * (apply_move st.C a τ : ℝ)))
              st.D_wild) st.N,
          st.N⟩ := by
      simp only [trainStepC]
      rw [h1, h2]
      rfl
    rw [hstep]
    simp only [sample_C_conditions, sample_C_data_fn, Bool.and_eq_true, decide_eq_true_eq] at h3
    obtain ⟨⟨hEc, hImc⟩, hIwc⟩ := h3
    obtain ⟨hIm, hIw, hS, hE, hImIw, hB, hC, hDm, hDw, hP, hSe, hEe, hIme, hIwe, hPe⟩ := hinv
    refine ⟨?_, ?_, hS, ?_, ?_, hB, ?_, hDm, hDw, ?_, hSe, ?_, ?_, ?_, ?_⟩
    · intro t ht
      exact hImc ⟨t, ht⟩
    · intro t ht
      exact hIwc ⟨t, ht⟩
    · intro t ht
      exact hEc ⟨t, ht⟩
    · intro t ht
      exact add_nonneg (hImc ⟨t, ht⟩) (hIwc ⟨t, ht⟩)
    · intro t ht
      refine apply_move_nonneg st.C a t (hC t ht) (fun hi => ?_)
      exact (Finset.mem_filter.mp ((hv a ha).1 hi)).2
    · intro t ht
      exact compute_P_mem _ _ _ _ t
        (transmission_rate_nonneg (params 0) (params 1) t_ctrl T hbeta t)
        (hImc ⟨t, ht⟩) (hIwc ⟨t, ht⟩) (by linarith [hN t ht])
    · intro t ht
      rfl
    · intro t ht
      exact compute_I_congr i_mild0 _ _ st.D_mild
        (fun τ => by rw [mul_comm (params 2) ((apply_move st.C a τ : ℤ) : ℝ)]) t
    · intro t ht
      exact compute_I_congr i_wild0 _ _ st.D_wild
        (fun τ => by rw [mul_comm (params 2) ((apply_move st.C a τ : ℤ) : ℝ)]) t
    · intro t ht
      rfl

theorem trainStepD_mild_preserves (T : ℕ) (st : SEIRState) (e0 i_mild0 i_wild0 : ℤ)
    (params : Fin 7 → ℝ) (t_ctrl : ℕ) (epsilon u : ℝ) (attempts : List Attempt)
    (hinv : check_rep_inv T st e0 i_mild0 i_wild0 params t_ctrl)
    (hv : ∀ a ∈ attempts, validAttempt T st.D_mild a)
    (hN : ∀ t < T, 1 ≤ st.N t) (hbeta : 0 ≤ params 0) :
    check_rep_inv T (trainStepD_mild T st e0 i_mild0 i_wild0 params t_ctrl epsilon u attempts)
      e0 i_mild0 i_wild0 params t_ctrl := by
  obtain ⟨hIm, hIw, hS, hE, hImIw, hB, hC, hDm, hDw, hP, hSe, hEe, hIme, hIwe, hPe⟩ := hinv
  rcases sample_D_mild_spec T st.D_mild st.I_mild st.I_wild st.C st.N e0 i_mild0 i_wild0
      params t_ctrl epsilon u attempts with ⟨h1, h2⟩ | ⟨a, ha, h1, h2, h3⟩
  · have hstep : trainStepD_mild T st e0 i_mild0 i_wild0 params t_ctrl epsilon u attempts =
        ⟨st.S, st.E, st.I_mild, st.I_wild, st.B, st.C, st.D_mild, st.D_wild,
          compute_P (transmission_rate (params 0) (params 1) t_ctrl T) st.I_mild st.I_wild st.N,
          st.N⟩ := by
      simp only [trainStepD_mild]
      rw [sample_D_mild_P_eq T st.D_mild st.I_mild st.I_wild st.C st.N e0 i_mild0 i_wild0
        params t_ctrl epsilon u attempts, h1, h2]
    rw [hstep]
    refine ⟨hIm, hIw, hS, hE, hImIw, hB, hC, hDm, hDw, ?_, hSe, hEe, hIme, hIwe, ?_⟩
    · intro t ht
      have h := hP t ht
      rw [hPe t ht] at h
      exact h
    · intro t ht
      rfl
  · have hstep : trainStepD_mild T st e0 i_mild0 i_wild0 params t_ctrl epsilon u attempts =
        ⟨st.S, st.E,
          compute_I i_mild0 (fun τ => round_int ((st.C τ : ℝ) * params 2))
            (apply_move st.D_mild a),
          st.I_wild, st.B, st.C, apply_move st.D_mild a, st.D_wild,
          compute_P (transmission_rate (params 0) (params 1) t_ctrl T)
            (compute_I i_mild0 (fun τ => round_int ((st.C τ : ℝ) * params 2))
              (apply_move st.D_mild a)) st.I_wild st.N,
          st.N⟩ := by
      simp only [trainStepD_mild]
      rw [sample_D_mild_P_eq T st.D_mild st.I_mild st.I_wild st.C st.N e0 i_mild0 i_wild0
        params t_ctrl epsilon u attempts, h1, h2]
      rfl
    rw [hstep]
    simp only [sample_D_mild_conditions, sample_D_mild_data_fn, decide_eq_true_eq] at h3
    refine ⟨?_, hIw, hS, hE, ?_, hB, hC, ?_, hDw, ?_, hSe, hEe, ?_, hIwe, ?_⟩
    · intro t ht
      exact h3 ⟨t, ht⟩
    · intro t ht
      exact add_nonneg (h3 ⟨t, ht⟩) (hIw t ht)
    · intro t ht
      refine apply_move_nonneg st.D_mild a t (hDm t ht) (fun hi => ?_)
      exact (Finset.mem_filter.mp ((hv a ha).1 hi)).2
    · intro t ht
      exact compute_P_mem _ _ _ _ t
        (transmission_rate_nonneg (params 0) (params 1) t_ctrl T hbeta t)
        (h3 ⟨t, ht⟩) (hIw t ht) (by linarith [hN t ht])
    · intro t ht
      rfl
    · intro t ht
      rfl

theorem sp_candidate_N_pos (T : ℕ) (B C D_mild D_wild N : ℕ → ℤ) (e0 i_mild0 i_wild0 : ℤ)
    (t_ctrl : ℕ) (old_k : ℝ) (x_new : Fin 7 → ℝ) (t : ℕ) :
    0 < (sp_candidate_data T B C D_mild D_wild N e0 i_mild0 i_wild0 t_ctrl old_k x_new).N t := by
  show 0 < max 1 (round_int ((N t : ℝ) * old_k / x_new 6))
  exact lt_of_lt_of_le one_pos (le_max_left _ _)

theorem trainStepParams_preserves (T : ℕ) (st : SEIRState) (e0 i_mild0 i_wild0 : ℤ)
    (params : Fin 7 → ℝ) (priors : Fin 7 → ℝ × ℝ) (rand_walk_stds : Fin 7 → ℝ)
    (t_ctrl : ℕ) (epsilon : ℝ) (bounds : Fin 7 → ℝ × ℝ) (u : ℝ) (draws : List (Fin 7 → ℝ))
    (hinv : check_rep_inv T st e0 i_mild0 i_wild0 params t_ctrl) :
    check_rep_inv T
      (trainStepParams T st e0 i_mild0 i_wild0 params priors rand_walk_stds t_ctrl epsilon
        bounds u draws).1 e0 i_mild0 i_wild0
      (trainStepParams T st e0 i_mild0 i_wild0 params priors rand_walk_stds t_ctrl epsilon
        bounds u draws).2.1 t_ctrl := by
  obtain ⟨hIm, hIw, hS, hE, hImIw, hB, hC, hDm, hDw, hP, hSe, hEe, hIme, hIwe, hPe⟩ := hinv
  rcases sample_params_spec T params st.S st.E st.I_mild st.I_wild st.B st.C st.D_mild
      st.D_wild st.P st.N e0 i_mild0 i_wild0 priors rand_walk_stds t_ctrl epsilon bounds u
      draws with ⟨hpar, hS1, hE1, hIm1, hIw1, hP1, hN1⟩ |
      ⟨x_new, hx, hcond, hpar, hS1, hE1, hIm1, hIw1, hP1, hN1⟩
  · have hst : (trainStepParams T st e0 i_mild0 i_wild0 params priors rand_walk_stds t_ctrl
        epsilon bounds u draws).1 = st := by
      simp only [trainStepParams]
      rw [hS1, hE1, hIm1, hIw1, hP1, hN1]
    have hpar2 : (trainStepParams T st e0 i_mild0 i_wild0 params priors rand_walk_stds t_ctrl
        epsilon bounds u draws).2.1 = params := by
      simp only [trainStepParams]
      rw [hpar]
    rw [hst, hpar2]
    exact ⟨hIm, hIw, hS, hE, hImIw, hB, hC, hDm, hDw, hP, hSe, hEe, hIme, hIwe, hPe⟩
  · have hst : (trainStepParams T st e0 i_mild0 i_wild0 params priors rand_walk_stds t_ctrl
        epsilon bounds u draws).1 =
        ⟨(sp_candidate_data T st.B st.C st.D_mild st.D_wild st.N e0 i_mild0 i_wild0 t_ctrl
            (params 6) x_new).S,
          (sp_candidate_data T st.B st.C st.D_mild st.D_wild st.N e0 i_mild0 i_wild0 t_ctrl
            (params 6) x_new).E,
          (sp_candidate_data T st.B st.C st.D_mild st.D_wild st.N e0 i_mild0 i_wild0 t_ctrl
            (params 6) x_new).I_mild,
          (sp_candidate_data T st.B st.C st.D_mild st.D_wild st.N e0 i_mild0 i_wild0 t_ctrl
            (params 6) x_new).I_wild,
          st.B, st.C, st.D_mild, st.D_wild,
          (sp_candidate_data T st.B st.C st.D_mild st.D_wild st.N e0 i_mild0 i_wild0 t_ctrl
            (params 6) x_new).P,
          (sp_candidate_data T st.B st.C st.D_mild st.D_wild st.N e0 i_mild0 i_wild0 t_ctrl
            (params 6) x_new).N⟩ := by
      simp only [trainStepParams]
      rw [hS1, hE1, hIm1, hIw1, hP1, hN1]
    have hpar2 : (trainStepParams T st e0 i_mild0 i_wild0 params priors rand_walk_stds t_ctrl
        epsilon bounds u draws).2.1 = x_new := by
      simp only [trainStepParams]
      rw [hpar]
    rw [hst, hpar2]
    simp only [sp_conditions, Bool.and_eq_true, decide_eq_true_eq] at hcond
    obtain ⟨⟨hpos, ⟨⟨⟨hSc, hEc⟩, hImc⟩, hIwc⟩⟩, hbnd⟩ := hcond
    refine ⟨?_, ?_, ?_, ?_, ?_, hB, hC, hDm, hDw, ?_, ?_, ?_, ?_, ?_, ?_⟩
    · intro t ht
      exact hImc ⟨t, ht⟩
    · intro t ht
      exact hIwc ⟨t, ht⟩
    · intro t ht
      exact hSc ⟨t, ht⟩
    · intro t ht
      exact hEc ⟨t, ht⟩
    · intro t ht
      exact add_nonneg (hImc ⟨t, ht⟩) (hIwc ⟨t, ht⟩)
    · intro t ht
      exact compute_P_mem
        (transmission_rate (x_new 0) (x_new 1) t_ctrl T)
        (sp_candidate_data T st.B st.C st.D_mild st.D_wild st.N e0 i_mild0 i_wild0 t_ctrl
          (params 6) x_new).I_mild
        (sp_candidate_data T st.B st.C st.D_mild st.D_wild st.N e0 i_mild0 i_wild0 t_ctrl
          (params 6) x_new).I_wild
        (sp_candidate_data T st.B st.C st.D_mild st.D_wild st.N e0 i_mild0 i_wild0 t_ctrl
          (params 6) x_new).N t
        (transmission_rate_nonneg (x_new 0) (x_new 1) t_ctrl T (le_of_lt (hpos 0)) t)
        (hImc ⟨t, ht⟩) (hIwc ⟨t, ht⟩)
        (sp_candidate_N_pos T st.B st.C st.D_mild st.D_wild st.N e0 i_mild0 i_wild0 t_ctrl
          (params 6) x_new t)
    · intro t ht
      rfl
    · intro t ht
      rfl
    · intro t ht
      rfl
    · intro t ht
      rfl
    · intro t ht
      rfl

/-- Claim C5 (amended): given a state satisfying the representation invariant
`check_rep_inv`, index draws satisfying the code's selection constraints,
**a positive population series (`N ≥ 1`) and a non-negative transmission rate
(`beta ≥ 0`)** — two properties the invariant itself does not record but
which every state built by the program has — each of the four samplers of the
training loop (`B`, `C`, `D_mild`, parameters) returns a state that satisfies
the invariant again (for the parameter sampler, with respect to the returned
parameter vector, and with no extra hypotheses at all).  Without `beta ≥ 0`
the claim is false (see the counterexample). -/
theorem claim_C5_rep_inv_preserved :
    (∀ (T : ℕ) (st : SEIRState) (e0 i_mild0 i_wild0 : ℤ) (params : Fin 7 → ℝ) (t_ctrl : ℕ)
      (epsilon u : ℝ) (attempts : List Attempt),
      check_rep_inv T st e0 i_mild0 i_wild0 params t_ctrl →
      (∀ a ∈ attempts, validAttempt T st.B a) →
      check_rep_inv T (trainStepB T st e0 i_mild0 i_wild0 params t_ctrl epsilon u attempts)
        e0 i_mild0 i_wild0 params t_ctrl) ∧
    (∀ (T : ℕ) (st : SEIRState) (e0 i_mild0 i_wild0 : ℤ) (params : Fin 7 → ℝ) (t_ctrl : ℕ)
      (epsilon u : ℝ) (attempts : List Attempt),
      check_rep_inv T st e0 i_mild0 i_wild0 params t_ctrl →
      (∀ a ∈ attempts, validAttempt T st.C a) →
      (∀ t < T, 1 ≤ st.N t) → 0 ≤ params 0 →
      check_rep_inv T (trainStepC T st e0 i_mild0 i_wild0 params t_ctrl epsilon u attempts)
        e0 i_mild0 i_wild0 params t_ctrl) ∧
    (∀ (T : ℕ) (st : SEIRState) (e0 i_mild0 i_wild0 : ℤ) (params : Fin 7 → ℝ) (t_ctrl : ℕ)
      (epsilon u : ℝ) (attempts : List Attempt),
      check_rep_inv T st e0 i_mild0 i_wild0 params t_ctrl →
      (∀ a ∈ attempts, validAttempt T st.D_mild a) →
      (∀ t < T, 1 ≤ st.N t) → 0 ≤ params 0 →
      check_rep_inv T (trainStepD_mild T st e0 i_mild0 i_wild0 params t_ctrl epsilon u attempts)
        e0 i_mild0 i_wild0 params t_ctrl) ∧
    (∀ (T : ℕ) (st : SEIRState) (e0 i_mild0 i_wild0 : ℤ) (params : Fin 7 → ℝ)
      (priors : Fin 7 → ℝ × ℝ) (rand_walk_stds : Fin 7 → ℝ) (t_ctrl : ℕ) (epsilon : ℝ)
      (bounds : Fin 7 → ℝ × ℝ) (u : ℝ) (draws : List (Fin 7 → ℝ)),
      check_rep_inv T st e0 i_mild0 i_wild0 params t_ctrl →
      check_rep_inv T
        (trainStepParams T st e0 i_mild0 i_wild0 params priors rand_walk_stds t_ctrl epsilon
          bounds u draws).1 e0 i_mild0 i_wild0
        (trainStepParams T st e0 i_mild0 i_wild0 params priors rand_walk_stds t_ctrl epsilon
          bounds u draws).2.1 t_ctrl) :=
  ⟨fun T st e0 i_mild0 i_wild0 params t_ctrl epsilon u attempts hinv hv =>
    trainStepB_preserves T st e0 i_mild0 i_wild0 params t_ctrl epsilon u attempts hinv hv,
  fun T st e0 i_mild0 i_wild0 params t_ctrl epsilon u attempts hinv hv hN hbeta =>
    trainStepC_preserves T st e0 i_mild0 i_wild0 params t_ctrl epsilon u attempts hinv hv
      hN hbeta,
  fun T st e0 i_mild0 i_wild0 params t_ctrl epsilon u attempts hinv hv hN hbeta =>
    trainStepD_mild_preserves T st e0 i_mild0 i_wild0 params t_ctrl epsilon u attempts hinv hv
      hN hbeta,
  fun T st e0 i_mild0 i_wild0 params priors rand_walk_stds t_ctrl epsilon bounds u draws hinv =>
    trainStepParams_preserves T st e0 i_mild0 i_wild0 params priors rand_walk_stds t_ctrl
      epsilon bounds u draws hinv⟩

/-- Witness for the amended C5 at a concrete input: the all-zero state with
`S = N = 1` satisfies the invariant, and after the `B`-step with an empty
attempt oracle it still does. -/
theorem claim_C5_rep_inv_preserved_witness :
    check_rep_inv 1 ⟨fun _ => 1, fun _ => 0, fun _ => 0, fun _ => 0, fun _ => 0, fun _ => 0,
      fun _ => 0, fun _ => 0, fun _ => 0, fun _ => 1⟩ 0 0 0 (fun _ => 1) 0 ∧
    check_rep_inv 1
      (trainStepB 1 ⟨fun _ => 1, fun _ => 0, fun _ => 0, fun _ => 0, fun _ => 0, fun _ => 0,
        fun _ => 0, fun _ => 0, fun _ => 0, fun _ => 1⟩ 0 0 0 (fun _ => 1) 0 (1e-16) (1/2) [])
      0 0 0 (fun _ => 1) 0 := by
  have hinv0 : check_rep_inv 1 ⟨fun _ => 1, fun _ => 0, fun _ => 0, fun _ => 0, fun _ => 0,
      fun _ => 0, fun _ => 0, fun _ => 0, fun _ => 0, fun _ => 1⟩ 0 0 0 (fun _ => 1) 0 := by
    refine ⟨fun t ht => le_refl 0, fun t ht => le_refl 0, fun t ht => by norm_num,
      fun t ht => le_refl 0, fun t ht => le_refl 0, fun t ht => le_refl 0,
      fun t ht => le_refl 0, fun t ht => le_refl 0, fun t ht => le_refl 0,
      fun t ht => ⟨le_refl 0, by norm_num⟩, ?_, ?_, ?_, ?_, ?_⟩
    · intro t ht
      simp [compute_S]
    · intro t ht
      simp [compute_E]
    · intro t ht
      simp [compute_I, round_int_zero]
    · intro t ht
      simp [compute_I, round_int_zero]
    · intro t ht
      exact (compute_P_zero _ _ _ _ t rfl rfl).symm
  exact ⟨hinv0, claim_C5_rep_inv_preserved.1 1
    ⟨fun _ => 1, fun _ => 0, fun _ => 0, fun _ => 0, fun _ => 0, fun _ => 0,
      fun _ => 0, fun _ => 0, fun _ => 0, fun _ => 1⟩ 0 0 0 (fun _ => 1) 0 (1e-16) (1/2) []
    hinv0 (fun a ha => absurd ha (List.not_mem_nil a))⟩

/-- Claim C5 (counterexample): the representation invariant does not
constrain the parameter vector, so a state with `beta = -1` can satisfy it
(here all infectious counts are zero, so `P = 0` pointwise).  The C-sampler
can then accept a feasible unit-swap move (sources `{0,2}`, destinations
`{0,1}` on `C = [2,0,1]`, a draw the code can make, accepted because the
uniform draw `c5u` is small enough) which makes `I_wild(2) = 1 > 0`; the
recomputed `P(2) = 1 - exp(1/9) < 0` then violates the invariant, so the
returned state fails `check_rep_inv` although the input state satisfied it. -/
theorem claim_C5_sample_C_breaks_rep_inv :
    check_rep_inv 3 c5St 10 0 0 c5params 3 ∧
    (∀ a ∈ [c5A], validAttempt 3 c5St.C a) ∧
    ¬ check_rep_inv 3 (trainStepC 3 c5St 10 0 0 c5params 3 (1e-16) c5u [c5A])
        10 0 0 c5params 3 := by
  have h2c : c5params 2 = 0 := rfl
  have h0c : c5params 0 = -1 := rfl
  have hinv : check_rep_inv 3 c5St 10 0 0 c5params 3 := by
    refine ⟨fun t ht => le_refl 0, fun t ht => le_refl 0, ?_, ?_, fun t ht => le_refl 0,
      ?_, ?_, fun t ht => le_refl 0, ?_,
      fun t ht => ⟨le_refl 0, by show (0:ℝ) ≤ 1; norm_num⟩,
      ?_, ?_, ?_, ?_, ?_⟩
    · intro t ht
      interval_cases t <;> decide
    · intro t ht
      interval_cases t <;> decide
    · intro t ht
      interval_cases t <;> decide
    · intro t ht
      interval_cases t <;> decide
    · intro t ht
      interval_cases t <;> decide
    · intro t ht
      interval_cases t <;> decide
    · intro t ht
      interval_cases t <;> decide
    · intro t ht
      simp [c5St, compute_I, h2c, round_int_zero]
    · intro t ht
      have : ∀ τ, c5St.C τ - round_int ((c5St.C τ : ℝ) * c5params 2) = c5St.C τ - 0 := by
        intro τ
        rw [h2c, mul_zero, round_int_zero]
      rw [compute_I_congr 0 _ _ c5St.D_wild this t]
      interval_cases t <;> decide
    · intro t ht
      exact (compute_P_zero _ _ _ _ t rfl rfl).symm
  refine ⟨hinv, ?_, ?_⟩
  · intro a ha
    rw [List.mem_singleton] at ha
    subst ha
    unfold validAttempt
    decide
  · have hpass : sample_C_conditions 3 (apply_move c5St.C c5A)
        (sample_C_data_fn 3 10 0 0 c5St.B c5St.D_mild c5St.D_wild c5St.N c5params 3
          (apply_move c5St.C c5A)) = true := by
      simp only [sample_C_conditions, sample_C_data_fn, Bool.and_eq_true, decide_eq_true_eq]
      refine ⟨⟨?_, ?_⟩, ?_⟩
      · intro t
        fin_cases t <;> decide
      · intro t
        simp [compute_I, h2c, round_int_zero, c5St]
      · intro t
        have : ∀ τ, apply_move c5St.C c5A τ -
            round_int (c5params 2 * (apply_move c5St.C c5A τ : ℝ)) =
            apply_move c5St.C c5A τ - 0 := by
          intro τ
          rw [h2c, zero_mul, round_int_zero]
        rw [compute_I_congr 0 _ _ c5St.D_wild this t.val]
        fin_cases t <;> decide
    have hcand : sample_x (sample_C_conditions 3)
        (sample_C_data_fn 3 10 0 0 c5St.B c5St.D_mild c5St.D_wild c5St.N c5params 3)
        c5St.C (⟨c5St.E, c5St.I_mild, c5St.I_wild, c5St.P⟩ : CData) [c5A] =
        (apply_move c5St.C c5A,
          sample_C_data_fn 3 10 0 0 c5St.B c5St.D_mild c5St.D_wild c5St.N c5params 3
            (apply_move c5St.C c5A)) :=
      sample_x_pass_cons _ _ _ _ _ _ hpass
    have hpC0 : 0 ≤ 1 - Real.exp (-c5params 3) := by
      have : Real.exp (-c5params 3) ≤ 1 := by
        rw [Real.exp_le_one_iff]
        norm_num [c5params]
      linarith
    have hpC1 : 1 - Real.exp (-c5params 3) ≤ 1 := by
      have := Real.exp_nonneg (-c5params 3)
      linarith
    have hfn_new : (3:ℝ) * Real.log (1e-16) ≤
        sample_C_fn 3 c5params (1e-16) (apply_move c5St.C c5A)
          (sample_C_data_fn 3 10 0 0 c5St.B c5St.D_mild c5St.D_wild c5St.N c5params 3
            (apply_move c5St.C c5A)) := by
      simp only [sample_C_fn]
      exact (sum_log_bounds 3 _ (1e-16)
        (fun t ht => ⟨binomPMF_nonneg _ _ _ hpC0 hpC1, binomPMF_le_one _ _ _ hpC0 hpC1⟩)
        (by norm_num)).1
    have hfn_old : sample_C_fn 3 c5params (1e-16) c5St.C
        (⟨c5St.E, c5St.I_mild, c5St.I_wild, c5St.P⟩ : CData) ≤ (3:ℝ) * Real.log (1 + 1e-16) := by
      simp only [sample_C_fn]
      exact (sum_log_bounds 3 _ (1e-16)
        (fun t ht => ⟨binomPMF_nonneg _ _ _ hpC0 hpC1, binomPMF_le_one _ _ _ hpC0 hpC1⟩)
        (by norm_num)).2
    have hlogle : Real.log (1e-16) ≤ Real.log (1 + 1e-16) := by
      apply Real.log_le_log (by norm_num) (by norm_num)
    have hacc : Real.log c5u ≤ min 0
        (sample_C_fn 3 c5params (1e-16) (apply_move c5St.C c5A)
            (sample_C_data_fn 3 10 0 0 c5St.B c5St.D_mild c5St.D_wild c5St.N c5params 3
              (apply_move c5St.C c5A)) -
          sample_C_fn 3 c5params (1e-16) c5St.C
            (⟨c5St.E, c5St.I_mild, c5St.I_wild, c5St.P⟩ : CData)) := by
      unfold c5u
      rw [Real.log_exp]
      refine le_min (by linarith) (by linarith)
    have hres : sample_C 3 c5St.C c5St.E c5St.I_mild c5St.I_wild c5St.D_mild c5St.D_wild
        c5St.B c5St.N c5St.P 10 0 0 c5params 3 (1e-16) c5u [c5A] =
        (apply_move c5St.C c5A,
          sample_C_data_fn 3 10 0 0 c5St.B c5St.D_mild c5St.D_wild c5St.N c5params 3
            (apply_move c5St.C c5A),
          sample_C_fn 3 c5params (1e-16) (apply_move c5St.C c5A)
            (sample_C_data_fn 3 10 0 0 c5St.B c5St.D_mild c5St.D_wild c5St.N c5params 3
              (apply_move c5St.C c5A)),
          sample_C_fn 3 c5params (1e-16) c5St.C
            (⟨c5St.E, c5St.I_mild, c5St.I_wild, c5St.P⟩ : CData)) := by
      apply mh_accepts c5St.C (⟨c5St.E, c5St.I_mild, c5St.I_wild, c5St.P⟩ : CData)
        (sample_C_fn 3 c5params (1e-16))
        (fun x data cf r =>
          sample_x cf (sample_C_data_fn 3 10 0 0 c5St.B c5St.D_mild c5St.D_wild c5St.N
            c5params 3) x data r)
        (sample_C_conditions 3) c5u [c5A]
      · exact hcand
      · exact hacc
    have hstep : trainStepC 3 c5St 10 0 0 c5params 3 (1e-16) c5u [c5A] =
        ⟨c5St.S, compute_E 10 c5St.B (apply_move c5St.C c5A),
          compute_I 0 (fun τ => round_int (c5params 2 * (apply_move c5St.C c5A τ : ℝ)))
            c5St.D_mild,
          compute_I 0 (fun τ => apply_move c5St.C c5A τ -
            round_int (c5params 2 * (apply_move c5St.C c5A τ : ℝ))) c5St.D_wild,
          c5St.B, apply_move c5St.C c5A, c5St.D_mild, c5St.D_wild,
          compute_P (transmission_rate (c5params 0) (c5params 1) 3 3)
            (compute_I 0 (fun τ => round_int (c5params 2 * (apply_move c5St.C c5A τ : ℝ)))
              c5St.D_mild)
            (compute_I 0 (fun τ => apply_move c5St.C c5A τ -
              round_int (c5params 2 * (apply_move c5St.C c5A τ : ℝ))) c5St.D_wild) c5St.N,
          c5St.N⟩ := by
      simp only [trainStepC]
      rw [hres]
      rfl
    rw [hstep]
    intro h
    obtain ⟨_, _, _, _, _, _, _, _, _, hPrange, _, _, _, _, _⟩ := h
    have hle : (0:ℝ) ≤ compute_P (transmission_rate (c5params 0) (c5params 1) 3 3)
        (compute_I 0 (fun τ => round_int (c5params 2 * (apply_move c5St.C c5A τ : ℝ)))
          c5St.D_mild)
        (compute_I 0 (fun τ => apply_move c5St.C c5A τ -
          round_int (c5params 2 * (apply_move c5St.C c5A τ : ℝ))) c5St.D_wild) c5St.N 2 :=
      (hPrange 2 (by norm_num)).1
    have hIm2 : compute_I 0
        (fun τ => round_int (c5params 2 * (apply_move c5St.C c5A τ : ℝ))) c5St.D_mild 2 = 0 := by
      simp [compute_I, h2c, round_int_zero, c5St]
    have hIw2 : compute_I 0 (fun τ => apply_move c5St.C c5A τ -
        round_int (c5params 2 * (apply_move c5St.C c5A τ : ℝ))) c5St.D_wild 2 = 1 := by
      have heq : ∀ τ, apply_move c5St.C c5A τ -
          round_int (c5params 2 * (apply_move c5St.C c5A τ : ℝ)) =
          apply_move c5St.C c5A τ - 0 := by
        intro τ
        rw [h2c, zero_mul, round_int_zero]
      rw [compute_I_congr 0 _ _ c5St.D_wild heq 2]
      decide
    have htr : transmission_rate (c5params 0) (c5params 1) 3 3 2 = -1 := by
      unfold transmission_rate
      rw [if_neg (by omega)]
      exact h0c
    have hval : compute_P (transmission_rate (c5params 0) (c5params 1) 3 3)
        (compute_I 0 (fun τ => round_int (c5params 2 * (apply_move c5St.C c5A τ : ℝ)))
          c5St.D_mild)
        (compute_I 0 (fun τ => apply_move c5St.C c5A τ -
          round_int (c5params 2 * (apply_move c5St.C c5A τ : ℝ))) c5St.D_wild) c5St.N 2 =
        1 - Real.exp (1/9) := by
      unfold compute_P
      rw [htr, hIm2, hIw2]
      norm_num [c5St]
    rw [hval] at hle
    have hexp : (1:ℝ) < Real.exp (1/9) := Real.one_lt_exp_iff.mpr (by norm_num)
    linarith
